import Mathlib

/-!
# Verification of the Measurement Orchestration Engine

A shallow embedding of the orchestration core of the wlan-scanner repository
(src/measurement_orchestrator.py together with the data types it uses from
src/models.py), and proofs about the behaviours described in the
specification.

Modelling conventions:
* Python exceptions are modelled by the type PyExc; a Python call that may
  raise is modelled as an Except PyExc valued function.  A try/except block
  becomes a match on that Except value, placed exactly where the source
  places the handler.
* External collaborators (the WiFi collector, network tester, file-transfer
  tester, export manager, callbacks, wall clock) perform I/O; their observable
  behaviour during one run is abstracted into environment records
  (ValidateEnv, CycleEnv) that fix the outcome of each collaborator call.
  Probe result objects are opaque to the orchestrator (typed Any in the
  source); they are modelled as Nat tokens.
* The engine's observable interactions (callback dispatch, validation,
  probe invocations, export, cleanup) are recorded in an event trace so that
  ordering and counting properties can be stated.
* Python dicts are modelled as insertion-ordered association lists with
  replace-in-place update, matching CPython dict semantics.
-/

namespace WlanScanner

/-- models.py MeasurementType: the five declared probe kinds. -/
inductive MeasurementType
  | wifi_info
  | ping
  | iperf_tcp
  | iperf_udp
  | file_transfer
deriving DecidableEq, Repr

/-- A runtime value used as a Step's measurement_type.  Python does not
enforce the MeasurementType annotation on MeasurementStep: a caller may
supply a value outside the five handled kinds (for instance an enum member
added later), which drives the final else branch of
_execute_measurement_step.  .known t is one of the five declared kinds;
.other v is any other value, whose .value / string rendering is v. -/
inductive PyMeasurementType
  | known (t : MeasurementType)
  | other (value : String)
deriving DecidableEq, Repr

/-- measurement_orchestrator.py MeasurementStatus. -/
inductive MeasurementStatus
  | pending
  | in_progress
  | completed
  | failed
  | skipped
deriving DecidableEq, Repr

/-- The .value string of a measurement type, as used in f-strings. -/
def type_value : PyMeasurementType → String
  | .known .wifi_info => "wifi_info"
  | .known .ping => "ping"
  | .known .iperf_tcp => "iperf_tcp"
  | .known .iperf_udp => "iperf_udp"
  | .known .file_transfer => "file_transfer"
  | .other v => v

/-- Python exceptions, split by the classes the model needs to tell
apart: IperfServerUnavailableError (network_tester.py) and ValueError are
caught by name in the source; AttributeError is what CPython raises when
_update_measurement_result assigns to a setter-less property (no handler
names it — only the generic except-Exception handlers catch it); otherExc
stands for every other Exception subclass. -/
inductive PyExc
  | iperfServerUnavailableError (m : String)
  | valueError (m : String)
  | attributeError (m : String)
  | otherExc (m : String)
deriving DecidableEq, Repr

/-- str(e): the message rendering of an exception, as interpolated into
f-strings by the orchestrator. -/
def PyExc.msg : PyExc → String
  | .iperfServerUnavailableError m => m
  | .valueError m => m
  | .attributeError m => m
  | .otherExc m => m

/-- Values held in a Step's parameters dict (Dict[str, Any]).  Only the
shapes the orchestrator inspects are distinguished: strings, numbers and
lists of strings. -/
inductive PyValue
  | str (s : String)
  | int (n : Int)
  | strList (l : List String)
deriving DecidableEq, Repr

/-- A Python dict with string keys: insertion-ordered association list. -/
abbrev PyDict := List (String × PyValue)

/-- d.get(k, dflt). -/
def dictGet (d : PyDict) (k : String) (dflt : PyValue) : PyValue :=
  match d with
  | [] => dflt
  | (k0, v0) :: rest => if k0 = k then v0 else dictGet rest k dflt

/-- d[k] = v: replace in place if present, else append (CPython order). -/
def dictSet (d : PyDict) (k : String) (v : PyValue) : PyDict :=
  match d with
  | [] => [(k, v)]
  | (k0, v0) :: rest => if k0 = k then (k0, v) :: rest else (k0, v0) :: dictSet rest k v

/-- d.update(other). -/
def dictUpdate (d other : PyDict) : PyDict :=
  other.foldl (fun acc kv => dictSet acc kv.1 kv.2) d

/-- The Step-Status mapping: a dict keyed by measurement type. -/
abbrev StatusMap := List (PyMeasurementType × MeasurementStatus)

/-- self._step_results[k] = v. -/
def setStatus (m : StatusMap) (k : PyMeasurementType) (v : MeasurementStatus) : StatusMap :=
  match m with
  | [] => [(k, v)]
  | (k0, v0) :: rest => if k0 = k then (k0, v) :: rest else (k0, v0) :: setStatus rest k v

/-- Lookup in the Step-Status mapping. -/
def getStatus (m : StatusMap) (k : PyMeasurementType) : Option MeasurementStatus :=
  match m with
  | [] => none
  | (k0, v0) :: rest => if k0 = k then some v0 else getStatus rest k

/-- measurement_orchestrator.py MeasurementStep.  retry_attempts is an int
in the source; range(n) is empty for n <= 0, so non-positive budgets all
behave as 0 and the field is modelled as Nat.  Timeouts are carried, never
computed with, and every timeout built by the engine is an integral number
of seconds, so they are modelled as Option Int. -/
structure MeasurementStep where
  measurement_type : PyMeasurementType
  enabled : Bool := true
  timeout : Option Int := none
  skip_on_error : Bool := false
  retry_attempts : Nat := 1
  parameters : PyDict := []
deriving DecidableEq, Repr

/-- measurement_orchestrator.py MeasurementSequence. -/
structure MeasurementSequence where
  steps : List MeasurementStep := []
  validate_prerequisites : Bool := true
  continue_on_failure : Bool := false
  export_results : Bool := true
  cleanup_on_exit : Bool := true
deriving DecidableEq, Repr

/-- models.py MeasurementResult, restricted to the attributes the
orchestrator touches.  The declared dataclass fields are wifi_info,
ping_results (a list, one entry per target), iperf_tcp_upload,
iperf_tcp_download, iperf_udp_result, file_transfer_result and errors.
ping_result and iperf_tcp_result are NOT fields: they are getter-only
backward-compatibility properties (models.py lines 129-137), so assigning
to them raises AttributeError.  Probe result objects are opaque Nat
tokens. -/
structure MeasurementResult where
  measurement_id : String
  wifi_info : Option Nat := none
  ping_results : List Nat := []
  iperf_tcp_upload : Option Nat := none
  iperf_tcp_download : Option Nat := none
  iperf_udp_result : Option Nat := none
  file_transfer_result : Option Nat := none
  errors : List String := []
deriving DecidableEq, Repr

/-- The backward-compatibility getter property ping_result: the first
entry of ping_results, or None.  Getter only — it has no setter. -/
def MeasurementResult.ping_result (r : MeasurementResult) : Option Nat :=
  r.ping_results.head?

/-- The backward-compatibility getter property iperf_tcp_result: the
upload result.  Getter only — it has no setter. -/
def MeasurementResult.iperf_tcp_result (r : MeasurementResult) : Option Nat :=
  r.iperf_tcp_upload

/-- The message of the AttributeError CPython raises when assigning to a
getter-only property.  The exact wording varies across Python versions;
the orchestrator only ever interpolates it into a formatted error string,
so one fixed rendering per property name is used. -/
def no_setter_msg (name : String) : String :=
  "property " ++ name ++ " of MeasurementResult object has no setter"

/-- MeasurementResult.add_error.  The source prefixes the wall-clock ISO
timestamp to the message; the timestamp is ambient I/O and is not
modelled. -/
def add_error (r : MeasurementResult) (msg : String) : MeasurementResult :=
  { r with errors := r.errors ++ [msg] }

/-- measurement_orchestrator.py OrchestrationResult.  execution_time is a
wall-clock float in the source; the model carries the ambient elapsed time
supplied by the environment (and the literal 0 on the early-return path). -/
structure OrchestrationResult where
  measurement_id : String
  measurement_result : MeasurementResult
  step_results : StatusMap
  execution_time : Nat
  errors : List String
  warnings : List String
deriving DecidableEq, Repr

/-- models.py Configuration, restricted to the fields the orchestrator
reads.  ping_interval is a float in the source with integral default 1.0;
it is carried, never computed with. -/
structure Configuration where
  interface_name : String := "Wi-Fi"
  target_ips : List String := ["192.168.1.1"]
  scan_interval : Int := 60
  timeout : Int := 10
  ping_count : Int := 10
  ping_size : Int := 32
  ping_interval : Int := 1
  iperf_server : String := "192.168.1.100"
  iperf_port : Int := 5201
  iperf_duration : Int := 10
  iperf_parallel : Int := 1
  iperf_udp_bandwidth : String := "10M"
  file_server : String := "192.168.1.100"
  file_size_mb : Int := 100
  file_protocol : String := "SMB"
  output_dir : String := "data"
deriving DecidableEq, Repr

/-- MeasurementOrchestrator.create_default_sequence. -/
def create_default_sequence (cfg : Configuration) : MeasurementSequence :=
  { steps := [
      { measurement_type := .known .wifi_info, enabled := true, timeout := some 10,
        skip_on_error := false, retry_attempts := 2, parameters := [] },
      { measurement_type := .known .ping, enabled := true, timeout := some 30,
        skip_on_error := true, retry_attempts := 1,
        parameters := [("targets", .strList cfg.target_ips),
                       ("count", .int cfg.ping_count),
                       ("size", .int cfg.ping_size),
                       ("interval", .int cfg.ping_interval)] },
      { measurement_type := .known .iperf_tcp, enabled := true,
        timeout := some (cfg.iperf_duration + 30),
        skip_on_error := true, retry_attempts := 1,
        parameters := [("server_ip", .str cfg.iperf_server),
                       ("server_port", .int cfg.iperf_port),
                       ("duration", .int cfg.iperf_duration),
                       ("parallel", .int cfg.iperf_parallel)] },
      { measurement_type := .known .iperf_udp, enabled := true,
        timeout := some (cfg.iperf_duration + 30),
        skip_on_error := true, retry_attempts := 1,
        parameters := [("server_ip", .str cfg.iperf_server),
                       ("server_port", .int cfg.iperf_port),
                       ("duration", .int cfg.iperf_duration),
                       ("bandwidth", .str cfg.iperf_udp_bandwidth)] },
      { measurement_type := .known .file_transfer, enabled := true, timeout := some 300,
        skip_on_error := true, retry_attempts := 1,
        parameters := [("server_address", .str cfg.file_server),
                       ("file_size_mb", .int cfg.file_size_mb),
                       ("protocol", .str cfg.file_protocol.toLower),
                       ("direction", .str "download")] }
    ],
    validate_prerequisites := true,
    continue_on_failure := true,
    export_results := true,
    cleanup_on_exit := true }

/-- Python membership test step.measurement_type in enabled_measurements,
where the set is annotated Set[MeasurementType]: a value outside the
declared enum is not a member. -/
def kind_mem (t : PyMeasurementType) (l : List MeasurementType) : Bool :=
  match t with
  | .known k => l.contains k
  | .other _ => false

/-- Lookup in an override dict keyed by MeasurementType
(Dict[MeasurementType, _]).  The test `overrides and key in overrides`
treats None and the empty dict identically, so Optional[Dict] is modelled
as a possibly empty association list. -/
def kind_lookup {α : Type} (l : List (MeasurementType × α)) (t : PyMeasurementType) : Option α :=
  match t with
  | .other _ => none
  | .known k =>
    match l with
    | [] => none
    | (k0, v0) :: rest => if k0 = k then some v0 else kind_lookup rest (.known k)

/-- The loop body of create_custom_sequence: copy the step, then apply
timeout and parameter overrides for its kind. -/
def build_custom_step (timeout_overrides : List (MeasurementType × Int))
    (parameter_overrides : List (MeasurementType × PyDict))
    (step : MeasurementStep) : MeasurementStep :=
  let custom_step : MeasurementStep :=
    { measurement_type := step.measurement_type, enabled := true,
      timeout := step.timeout, skip_on_error := step.skip_on_error,
      retry_attempts := step.retry_attempts, parameters := step.parameters }
  let custom_step :=
    match kind_lookup timeout_overrides step.measurement_type with
    | some t => { custom_step with timeout := some t }
    | none => custom_step
  match kind_lookup parameter_overrides step.measurement_type with
  | some d => { custom_step with parameters := dictUpdate custom_step.parameters d }
  | none => custom_step

/-- The filtering loop of create_custom_sequence. -/
def custom_steps_loop (enabled_measurements : List MeasurementType)
    (timeout_overrides : List (MeasurementType × Int))
    (parameter_overrides : List (MeasurementType × PyDict)) :
    List MeasurementStep → List MeasurementStep
  | [] => []
  | step :: rest =>
    if kind_mem step.measurement_type enabled_measurements then
      build_custom_step timeout_overrides parameter_overrides step ::
        custom_steps_loop enabled_measurements timeout_overrides parameter_overrides rest
    else
      custom_steps_loop enabled_measurements timeout_overrides parameter_overrides rest

/-- MeasurementOrchestrator.create_custom_sequence. -/
def create_custom_sequence (cfg : Configuration)
    (enabled_measurements : List MeasurementType)
    (timeout_overrides : List (MeasurementType × Int))
    (parameter_overrides : List (MeasurementType × PyDict)) : MeasurementSequence :=
  let default_sequence := create_default_sequence cfg
  { steps := custom_steps_loop enabled_measurements timeout_overrides
      parameter_overrides default_sequence.steps,
    validate_prerequisites := true,
    continue_on_failure := true,
    export_results := true,
    cleanup_on_exit := true }

/-- Observable behaviour of the collaborator calls made by
validate_prerequisites during one invocation.  Each field is the outcome of
the corresponding call: .ok is a normal return, .error a raised
exception. -/
structure ValidateEnv where
  is_connected : Except PyExc Bool
  is_host_reachable : Except PyExc Bool
  check_iperf_server_availability : Except PyExc Unit
  config_validate : Except PyExc Unit

/-- The try block of validate_prerequisites: runs the four checks in order,
accumulating issues; returns the issues collected so far together with the
exception, if one escaped the inner handlers (it would be caught by the
outer except of validate_prerequisites).  The two inner try/except blocks
catch only IperfServerUnavailableError and ValueError respectively. -/
def validate_checks (cfg : Configuration) (env : ValidateEnv) :
    List String × Option PyExc := Id.run do
  let mut issues : List String := []
  -- Check WiFi connectivity
  match env.is_connected with
  | .error e => return (issues, some e)
  | .ok connected =>
    if !connected then
      issues := issues ++ ["WiFi interface is not connected"]
  -- Check primary target connectivity
  match cfg.target_ips with
  | [] => pure ()
  | primary_target :: _ =>
    match env.is_host_reachable with
    | .error e => return (issues, some e)
    | .ok reachable =>
      if !reachable then
        issues := issues ++ ["Primary target " ++ primary_target ++ " is not reachable"]
  -- Check iPerf3 server availability
  match env.check_iperf_server_availability with
  | .error (.iperfServerUnavailableError m) =>
    issues := issues ++ ["iPerf3 server unavailable: " ++ m]
  | .error e => return (issues, some e)
  | .ok _ => pure ()
  -- Validate configuration
  match env.config_validate with
  | .error (.valueError m) =>
    issues := issues ++ ["Configuration validation failed: " ++ m]
  | .error e => return (issues, some e)
  | .ok _ => pure ()
  return (issues, none)

/-- MeasurementOrchestrator.validate_prerequisites.  The outer
try/except Exception catches any exception escaping the checks, records it
via the error handler (a pure side effect, not modelled) and appends an
"Unexpected error" issue; the function then returns normally.  The Except
result type records that a Python method may in principle raise; every
branch of this definition returns .ok. -/
def validate_prerequisites (cfg : Configuration) (env : ValidateEnv) :
    Except PyExc (Bool × List String) :=
  let (issues, exc) := validate_checks cfg env
  match exc with
  | some e =>
    let issues := issues ++ ["Unexpected error during validation: " ++ e.msg]
    .ok (issues.length == 0, issues)
  | none => .ok (issues.length == 0, issues)

/-- Observable events of one run, in order: callback dispatches, the
prerequisite-validation call, probe invocations (with the index of the step
in the plan and the attempt index), the export call and the cleanup call. -/
inductive TraceEv
  | cb_before_measurement
  | cb_after_measurement
  | cb_before_step (t : PyMeasurementType)
  | cb_after_step (t : PyMeasurementType) (success : Bool)
  | cb_on_error (t : PyMeasurementType)
  | validation_run
  | probe_call (stepIdx attempt : Nat) (t : PyMeasurementType)
  | export_call
  | cleanup_call
deriving DecidableEq, Repr

/-- Observable behaviour of the collaborator calls made by
execute_measurement_cycle during one invocation.  probe gives, per step
index and attempt index, the outcome of the probe-interface call dispatched
by _execute_measurement_step (.ok none is a probe that returns None);
elapsed is the ambient wall-clock duration of the run. -/
structure CycleEnv where
  venv : ValidateEnv
  probe : Nat → Nat → Except PyExc (Option Nat)
  export_measurement : Except PyExc Unit
  cleanup : Except PyExc Unit
  elapsed : Nat

/-- MeasurementOrchestrator._execute_measurement_step, together with the
event it contributes to the trace.  The dispatch reaches the external probe
call only for a known kind whose parameters pass the in-branch checks; the
ping branch raises if the target list is missing/empty/not a list, the
file-transfer branch raises on an unsupported protocol, and the final else
branch raises ValueError for an unknown measurement type. -/
def execute_measurement_step (env : CycleEnv) (cfg : Configuration)
    (idx attempt : Nat) (step : MeasurementStep) :
    Except PyExc (Option Nat) × List TraceEv :=
  match step.measurement_type with
  | .known .wifi_info =>
    (env.probe idx attempt, [.probe_call idx attempt step.measurement_type])
  | .known .ping =>
    match dictGet step.parameters "targets" (.strList cfg.target_ips) with
    | .strList (_ :: _) =>
      (env.probe idx attempt, [.probe_call idx attempt step.measurement_type])
    | _ => (.error (.valueError "No valid targets specified for ping test"), [])
  | .known .iperf_tcp =>
    (env.probe idx attempt, [.probe_call idx attempt step.measurement_type])
  | .known .iperf_udp =>
    (env.probe idx attempt, [.probe_call idx attempt step.measurement_type])
  | .known .file_transfer =>
    match dictGet step.parameters "protocol" (.str cfg.file_protocol.toLower) with
    | .str protocol =>
      if protocol == "smb" || protocol == "ftp" || protocol == "http" || protocol == "https" then
        (env.probe idx attempt, [.probe_call idx attempt step.measurement_type])
      else
        (.error (.valueError ("Unsupported file transfer protocol: " ++ protocol)), [])
    | _ => (.error (.valueError "Unsupported file transfer protocol"), [])
  | .other v => (.error (.valueError ("Unknown measurement type: " ++ v)), [])

/-- MeasurementOrchestrator._update_measurement_result: dispatch the result
object to the record attribute named for the kind; a None result is a
no-op, and the if/elif chain has no else branch.  The wifi_info,
iperf_udp_result and file_transfer_result assignments hit real dataclass
fields and succeed; the ping_result and iperf_tcp_result assignments hit
the getter-only properties of MeasurementResult and raise AttributeError
(lines 507 and 509 of the orchestrator against models.py lines
129-137). -/
def update_measurement_result (r : MeasurementResult) (t : PyMeasurementType)
    (result : Option Nat) : Except PyExc MeasurementResult :=
  match result with
  | none => .ok r
  | some v =>
    match t with
    | .known .wifi_info => .ok { r with wifi_info := some v }
    | .known .ping => .error (.attributeError (no_setter_msg "ping_result"))
    | .known .iperf_tcp => .error (.attributeError (no_setter_msg "iperf_tcp_result"))
    | .known .iperf_udp => .ok { r with iperf_udp_result := some v }
    | .known .file_transfer => .ok { r with file_transfer_result := some v }
    | .other _ => .ok r

/-- The mutable state of the step loop inside execute_measurement_cycle:
the aggregate record, the Step-Status mapping, the run's error list, the
event trace so far, and whether the loop has hit its break statement. -/
structure LoopState where
  record : MeasurementResult
  statuses : StatusMap
  errors : List String
  trace : List TraceEv
  stopped : Bool
deriving DecidableEq, Repr

/-- The per-step retry loop (for attempt in range(step.retry_attempts)).
fuel counts the remaining iterations; the entry point is attempt = 0,
fuel = step.retry_attempts, so attempt + fuel = step.retry_attempts
throughout and the last-attempt test attempt == step.retry_attempts - 1
becomes attempt + 1 == step.retry_attempts.  The try block of one
iteration covers both the probe call and the result merge, so an
exception raised by either is caught by the same handler: only when the
probe returns AND _update_measurement_result returns is the status set to
completed and the attempt successful.  On the last failed attempt the
status is set to failed, one formatted error string (carrying the caught
exception's message) is appended to the run's error list and to the
record's error list, the error-classification collaborator is invoked
(pure side effect, not modelled) and the on_error callbacks fire.
Returns the new state and the step_success flag. -/
def run_attempts (env : CycleEnv) (cfg : Configuration) (idx : Nat)
    (step : MeasurementStep) (st : LoopState) (attempt : Nat) :
    Nat → LoopState × Bool
  | 0 => (st, false)
  | fuel + 1 =>
    let (res, trE) := execute_measurement_step env cfg idx attempt step
    let st1 := { st with trace := st.trace ++ trE }
    let merged : Except PyExc MeasurementResult :=
      match res with
      | .ok v => update_measurement_result st1.record step.measurement_type v
      | .error e => .error e
    match merged with
    | .ok record2 =>
      ({ st1 with
          record := record2,
          statuses := setStatus st1.statuses step.measurement_type .completed }, true)
    | .error e =>
      if attempt + 1 == step.retry_attempts then
        let msg := type_value step.measurement_type ++ " failed after " ++
          toString step.retry_attempts ++ " attempts: " ++ e.msg
        ({ st1 with
            statuses := setStatus st1.statuses step.measurement_type .failed,
            errors := st1.errors ++ [msg],
            record := add_error st1.record msg,
            trace := st1.trace ++ [.cb_on_error step.measurement_type] }, false)
      else
        run_attempts env cfg idx step st1 (attempt + 1) fuel

/-- The step loop of execute_measurement_cycle.  A disabled step is marked
skipped.  An enabled step is marked in_progress, before_step callbacks
fire, the retry loop runs, after_step callbacks fire with the success
flag, and if the step failed with skip_on_error false and
continue_on_failure false the loop breaks (stopped = true; the remaining
steps are not processed).  idx is the position of the head step in the
plan. -/
def run_steps (env : CycleEnv) (cfg : Configuration) (cont : Bool) (idx : Nat)
    (steps : List MeasurementStep) (st : LoopState) : LoopState :=
  match steps with
  | [] => st
  | step :: rest =>
    if st.stopped then st
    else if !step.enabled then
      run_steps env cfg cont (idx + 1) rest
        { st with statuses := setStatus st.statuses step.measurement_type .skipped }
    else
      let stIn := { st with
        statuses := setStatus st.statuses step.measurement_type .in_progress,
        trace := st.trace ++ [.cb_before_step step.measurement_type] }
      let (stA, step_success) := run_attempts env cfg idx step stIn 0 step.retry_attempts
      let stOut := { stA with
        trace := stA.trace ++ [.cb_after_step step.measurement_type step_success] }
      if !step_success && !step.skip_on_error && !cont then
        { stOut with stopped := true }
      else
        run_steps env cfg cont (idx + 1) rest stOut

/-- The export block: if requested, call the export collaborator; a raised
exception is caught and appended to the run's error list. -/
def run_export (env : CycleEnv) (seq : MeasurementSequence) (st : LoopState) : LoopState :=
  if seq.export_results then
    match env.export_measurement with
    | .ok _ => { st with trace := st.trace ++ [.export_call] }
    | .error e =>
      { st with
          errors := st.errors ++ ["Failed to export measurement results: " ++ e.msg],
          trace := st.trace ++ [.export_call] }
  else st

/-- The cleanup half of the finally block: if requested, call
file_transfer_tester.cleanup; a raised exception is caught and becomes a
warning string.  Returns the warnings produced and the events
contributed. -/
def run_cleanup (env : CycleEnv) (seq : MeasurementSequence) :
    List String × List TraceEv :=
  if seq.cleanup_on_exit then
    match env.cleanup with
    | .ok _ => ([], [.cleanup_call])
    | .error e => (["Cleanup failed: " ++ e.msg], [.cleanup_call])
  else ([], [])

/-- How the try block of execute_measurement_cycle exits: an early return
at the prerequisite gate (carrying the result built by the return
expression, evaluated before the finally block runs), a normal fall
through to the end of the block, or an exception escaping the block. -/
inductive TryExit
  | early (r : OrchestrationResult) (tr : List TraceEv)
  | normal (st : LoopState) (warnings : List String)
  | raised (e : PyExc) (tr : List TraceEv)
deriving Repr

/-- The body of the try block after the prerequisite gate: step loop then
export. -/
def run_main (env : CycleEnv) (cfg : Configuration) (seq : MeasurementSequence)
    (record0 : MeasurementResult) (errors warnings : List String)
    (trace : List TraceEv) : TryExit :=
  let st0 : LoopState :=
    { record := record0, statuses := [], errors := errors, trace := trace, stopped := false }
  let st1 := run_steps env cfg seq.continue_on_failure 0 seq.steps st0
  .normal (run_export env seq st1) warnings

/-- The try block of execute_measurement_cycle: the prerequisite gate
(validation, early return or downgrade-and-proceed) followed by the step
loop and export.  If validation fails and the run does not continue, the
early return expression is evaluated here: error list = issues, empty
Step-Status mapping (self._step_results, freshly cleared), execution
time 0.0.  When validation fails and the run continues, the issues have
already been extended onto the error list when the warning list also
receives them. -/
def try_body (env : CycleEnv) (cfg : Configuration) (seq : MeasurementSequence)
    (measurement_id : String) (record0 : MeasurementResult)
    (trace0 : List TraceEv) : TryExit :=
  if seq.validate_prerequisites then
    match validate_prerequisites cfg env.venv with
    | .error e => .raised e (trace0 ++ [.validation_run])
    | .ok (is_valid, issues) =>
      let trace1 := trace0 ++ [.validation_run]
      if !is_valid then
        if !seq.continue_on_failure then
          .early { measurement_id := measurement_id, measurement_result := record0,
                   step_results := [], execution_time := 0,
                   errors := issues, warnings := [] } trace1
        else
          run_main env cfg seq record0 issues issues trace1
      else
        run_main env cfg seq record0 [] [] trace1
  else
    run_main env cfg seq record0 [] [] trace0

/-- MeasurementOrchestrator.execute_measurement_cycle, for an explicit
sequence and measurement id (the source generates a uuid and builds the
default sequence when they are omitted; both are ambient I/O).  The
before_measurement callbacks fire first; the try block runs; the finally
block then performs cleanup and fires the after_measurement callbacks in
every exit path.  On the early-return path the result object was already
built, but its warning list is the same Python list object the finally
block appends to, so a cleanup warning still appears in the returned
outcome.  On the normal path the elapsed wall-clock time is computed after
the finally block and the result is assembled with a copy of the status
mapping.  An exception escaping the try block would propagate to the
caller after the finally block ran. -/
def execute_measurement_cycle (env : CycleEnv) (cfg : Configuration)
    (seq : MeasurementSequence) (measurement_id : String) :
    Except PyExc (OrchestrationResult × List TraceEv) :=
  let record0 : MeasurementResult := { measurement_id := measurement_id }
  let trace0 : List TraceEv := [.cb_before_measurement]
  match try_body env cfg seq measurement_id record0 trace0 with
  | .early r tr =>
    let (cw, trC) := run_cleanup env seq
    .ok ({ r with warnings := r.warnings ++ cw },
         tr ++ trC ++ [.cb_after_measurement])
  | .normal st warnings =>
    let (cw, trC) := run_cleanup env seq
    .ok ({ measurement_id := measurement_id, measurement_result := st.record,
           step_results := st.statuses, execution_time := env.elapsed,
           errors := st.errors, warnings := warnings ++ cw },
         st.trace ++ trC ++ [.cb_after_measurement])
  | .raised e _ =>
    let (_, _) := run_cleanup env seq
    .error e

/-! ## Derived notions used to state properties -/

/-- Whether a Python call raised (the Except value is an error). -/
def exceptFailed {α : Type} : Except PyExc α → Bool
  | .error _ => true
  | .ok _ => false

/-- Terminal step statuses: completed, failed, skipped. -/
def terminal : MeasurementStatus → Bool
  | .completed => true
  | .failed => true
  | .skipped => true
  | .pending => false
  | .in_progress => false

/-- Event predicate: a probe invocation belonging to the step at plan
position i. -/
def isProbeAt (i : Nat) : TraceEv → Bool
  | .probe_call j _ _ => j == i
  | _ => false

/-- Number of probe invocations recorded for the step at plan position
i. -/
def countProbe (tr : List TraceEv) (i : Nat) : Nat :=
  tr.countP (isProbeAt i)

/-- Event predicate: any event produced while executing a step (probe
invocation or per-step callback). -/
def isStepActivity : TraceEv → Bool
  | .probe_call _ _ _ => true
  | .cb_before_step _ => true
  | .cb_after_step _ _ => true
  | .cb_on_error _ => true
  | _ => false

/-- Whether _execute_measurement_step reaches the external probe call for
this step (rather than raising inside the dispatch itself): the kind must
be one of the five known kinds, the ping branch needs a nonempty target
list, and the file-transfer branch needs a supported protocol. -/
def probe_dispatched (cfg : Configuration) (step : MeasurementStep) : Bool :=
  match step.measurement_type with
  | .known .wifi_info => true
  | .known .ping =>
    match dictGet step.parameters "targets" (.strList cfg.target_ips) with
    | .strList (_ :: _) => true
    | _ => false
  | .known .iperf_tcp => true
  | .known .iperf_udp => true
  | .known .file_transfer =>
    match dictGet step.parameters "protocol" (.str cfg.file_protocol.toLower) with
    | .str protocol =>
      protocol == "smb" || protocol == "ftp" || protocol == "http" || protocol == "https"
    | _ => false
  | .other _ => false

/-- The Step-Status mapping observed after the step loop has processed the
first k steps of the plan.  Because the loop's break is permanent (a
stopped state is returned unchanged by the remaining iterations), running
the loop on the k-step prefix yields exactly the in-run state after the
k-th step. -/
def statuses_after (env : CycleEnv) (cfg : Configuration) (cont : Bool)
    (steps : List MeasurementStep) (st0 : LoopState) (k : Nat) : StatusMap :=
  (run_steps env cfg cont 0 (steps.take k) st0).statuses

/-- The run's error list at the point the step loop starts (the
prerequisite issues when validation failed, whether or not the run
continues). -/
def init_errors (env : CycleEnv) (cfg : Configuration) (seq : MeasurementSequence) :
    List String :=
  if seq.validate_prerequisites then
    match validate_prerequisites cfg env.venv with
    | .ok (true, _) => []
    | .ok (false, issues) => issues
    | .error _ => []
  else []

/-- The run's warning list at the point the step loop starts (the
prerequisite issues when validation failed and the run continues). -/
def init_warnings (env : CycleEnv) (cfg : Configuration) (seq : MeasurementSequence) :
    List String :=
  if seq.validate_prerequisites then
    match validate_prerequisites cfg env.venv with
    | .ok (true, _) => []
    | .ok (false, issues) => if seq.continue_on_failure then issues else []
    | .error _ => []
  else []

/-- The event trace at the point the step loop starts. -/
def init_trace (seq : MeasurementSequence) : List TraceEv :=
  if seq.validate_prerequisites then [.cb_before_measurement, .validation_run]
  else [.cb_before_measurement]

/-- The loop state the step loop starts from, for a run that passes the
prerequisite gate. -/
def init_loop_state (env : CycleEnv) (cfg : Configuration)
    (seq : MeasurementSequence) (measurement_id : String) : LoopState :=
  { record := { measurement_id := measurement_id }, statuses := [],
    errors := init_errors env cfg seq, trace := init_trace seq, stopped := false }

/-- Whether the run passes the prerequisite gate and reaches the step
loop: validation is disabled, or it succeeds, or the run continues on
failure. -/
def gate_proceeds (env : CycleEnv) (cfg : Configuration)
    (seq : MeasurementSequence) : Bool :=
  !seq.validate_prerequisites ||
    (match validate_prerequisites cfg env.venv with
     | .ok (is_valid, _) => is_valid || seq.continue_on_failure
     | .error _ => false)

/-! ## Concrete fixtures used by counterexamples and witnesses -/

/-- A default configuration (all defaults of models.py Configuration). -/
def cfg0 : Configuration := {}

/-- A validation environment in which all four checks pass. -/
def venvOK : ValidateEnv :=
  { is_connected := .ok true, is_host_reachable := .ok true,
    check_iperf_server_availability := .ok (), config_validate := .ok () }

/-- The WiFi interface reports disconnected; everything else passes. -/
def venvDisc : ValidateEnv := { venvOK with is_connected := .ok false }

/-- The iPerf3 server availability check raises an exception that is not
IperfServerUnavailableError. -/
def venvBoom : ValidateEnv :=
  { venvOK with check_iperf_server_availability := .error (.otherExc "boom") }

/-- A cycle environment in which every probe call succeeds with result
token 7, export and cleanup succeed, and the run takes 5 seconds. -/
def envBase : CycleEnv :=
  { venv := venvOK, probe := fun _ _ => .ok (some 7),
    export_measurement := .ok (), cleanup := .ok (), elapsed := 5 }

/-- Probes: the step at position 0 succeeds with token 1, all later steps
fail. -/
def envDup : CycleEnv :=
  { envBase with probe := fun i _ => if i == 0 then .ok (some 1) else .error (.otherExc "x") }

/-- Validation fails (disconnected) and cleanup raises. -/
def envFailGate : CycleEnv :=
  { envBase with venv := venvDisc, cleanup := .error (.otherExc "cfail") }

/-- Validation fails (disconnected); everything else succeeds. -/
def envGateCont : CycleEnv := { envBase with venv := venvDisc }

/-- Probes fail on attempt 0 and succeed with token 9 on attempt 1. -/
def envRetry : CycleEnv :=
  { envBase with probe := fun _ a => if a == 0 then .error (.otherExc "t") else .ok (some 9) }

/-- A link-info step with a retry budget of 2. -/
def stepW : MeasurementStep := { measurement_type := .known .wifi_info, retry_attempts := 2 }

/-- A link-info step with a retry budget of 1. -/
def sW1 : MeasurementStep := { measurement_type := .known .wifi_info, retry_attempts := 1 }

/-- A latency step with an explicit target list and a retry budget of
1. -/
def sPing1 : MeasurementStep :=
  { measurement_type := .known .ping, retry_attempts := 1,
    parameters := [("targets", .strList ["10.0.0.1"])] }

/-- An enabled step with a zero retry budget (violating the stated budget
of at least 1). -/
def step0 : MeasurementStep :=
  { measurement_type := .known .ping, retry_attempts := 0, skip_on_error := false,
    parameters := [("targets", .strList ["10.0.0.1"])] }

/-- A step whose measurement_type is outside the five handled kinds. -/
def stepU : MeasurementStep := { measurement_type := .other "bogus", retry_attempts := 1 }

/-- A single-step plan with validation, export and cleanup disabled. -/
def seq1 : MeasurementSequence :=
  { steps := [stepW], validate_prerequisites := false,
    export_results := false, cleanup_on_exit := false }

/-- A single latency-step plan with validation, export and cleanup
disabled. -/
def seqPing : MeasurementSequence :=
  { steps := [sPing1], validate_prerequisites := false,
    export_results := false, cleanup_on_exit := false }

/-- A plan containing one step of an unknown kind. -/
def seqU : MeasurementSequence :=
  { steps := [stepU], validate_prerequisites := false, continue_on_failure := true,
    export_results := false, cleanup_on_exit := false }

/-- A plan exercising the prerequisite gate with continue_on_failure
false. -/
def seqGate : MeasurementSequence :=
  { steps := [stepW], validate_prerequisites := true, continue_on_failure := false,
    export_results := true, cleanup_on_exit := true }

/-- A plan exercising the prerequisite gate with continue_on_failure
true. -/
def seqGateCont : MeasurementSequence :=
  { steps := [], validate_prerequisites := true, continue_on_failure := true,
    export_results := false, cleanup_on_exit := false }

/-- A single-step plan with validation on, continue_on_failure false, and
export/cleanup disabled. -/
def seqC3 : MeasurementSequence :=
  { steps := [stepW], validate_prerequisites := true, continue_on_failure := false,
    export_results := false, cleanup_on_exit := false }

/-- A plan with two steps of the same probe kind. -/
def seqDup : MeasurementSequence :=
  { steps := [sW1, sW1], validate_prerequisites := false, continue_on_failure := true,
    export_results := false, cleanup_on_exit := false }

/-- A plan whose first step has a zero retry budget and blocking failure
flags. -/
def seqR0 : MeasurementSequence :=
  { steps := [step0, sW1], validate_prerequisites := false, continue_on_failure := false,
    export_results := false, cleanup_on_exit := false }

/-- The loop state at the start of the step loop of a gate-free run with
id m. -/
def st0m : LoopState :=
  { record := { measurement_id := "m" }, statuses := [], errors := [],
    trace := [.cb_before_measurement], stopped := false }

/-- validate_prerequisites always returns normally, with the ok flag
computed as issues.length == 0. -/
theorem validate_prerequisites_shape (cfg : Configuration) (env : ValidateEnv) :
    ∃ issues, validate_prerequisites cfg env = .ok (((issues.length == 0 : Bool)), issues) := by
  unfold validate_prerequisites
  rcases h : validate_checks cfg env with ⟨issues, exc⟩
  cases exc with
  | none => exact ⟨issues, by rfl⟩
  | some e => exact ⟨issues ++ ["Unexpected error during validation: " ++ e.msg], by rfl⟩

/-- A stopped loop state passes through the step loop unchanged. -/
theorem run_steps_stopped (env : CycleEnv) (cfg : Configuration) (cont : Bool)
    (idx : Nat) (l : List MeasurementStep) (st : LoopState) (h : st.stopped = true) :
    run_steps env cfg cont idx l st = st := by
  cases l with
  | nil => rfl
  | cons s rest => simp [run_steps, h]

/-- Looking up the key just set. -/
theorem getStatus_setStatus_self (m : StatusMap) (k : PyMeasurementType)
    (v : MeasurementStatus) : getStatus (setStatus m k v) k = some v := by
  induction m with
  | nil => simp [setStatus, getStatus]
  | cons kv rest ih =>
    rcases kv with ⟨k0, v0⟩
    by_cases h : k0 = k
    · simp [setStatus, getStatus, h]
    · simp [setStatus, getStatus, h, ih]

/-- Setting one key leaves every other key unchanged. -/
theorem getStatus_setStatus_ne (m : StatusMap) (k k2 : PyMeasurementType)
    (v : MeasurementStatus) (h : k2 ≠ k) :
    getStatus (setStatus m k v) k2 = getStatus m k2 := by
  induction m with
  | nil =>
    have hne : ¬ k = k2 := fun hh => h hh.symm
    simp [setStatus, getStatus, hne]
  | cons kv rest ih =>
    rcases kv with ⟨k0, v0⟩
    by_cases h0 : k0 = k
    · subst h0
      have hne : ¬ k0 = k2 := fun hh => h hh.symm
      simp [setStatus, getStatus, hne]
    · simp only [setStatus, getStatus, if_neg h0]
      by_cases h2 : k0 = k2
      · simp [getStatus, h2]
      · simp [getStatus, h2, ih]


theorem run_steps_append (env : CycleEnv) (cfg : Configuration) (cont : Bool)
    (l1 l2 : List MeasurementStep) (idx : Nat) (st : LoopState) :
    run_steps env cfg cont idx (l1 ++ l2) st =
      run_steps env cfg cont (idx + l1.length) l2 (run_steps env cfg cont idx l1 st) := by
  induction l1 generalizing idx st with
  | nil => simp [run_steps]
  | cons s rest ih =>
    cases hstop : st.stopped with
    | true =>
      rw [run_steps_stopped env cfg cont idx (s :: rest ++ l2) st hstop,
          run_steps_stopped env cfg cont idx (s :: rest) st hstop,
          run_steps_stopped env cfg cont (idx + (s :: rest).length) l2 st hstop]
    | false =>
      cases hen : s.enabled with
      | false =>
        simp only [List.cons_append, run_steps, hstop, hen, Bool.not_false, if_true,
          Bool.false_eq_true, if_false, List.length_cons, List.append_eq]
        have harith : idx + (rest.length + 1) = idx + 1 + rest.length := by omega
        rw [harith]
        exact ih (idx + 1) _
      | true =>
        simp only [List.cons_append, run_steps, hstop, hen, Bool.not_true,
          Bool.false_eq_true, if_false, List.length_cons, List.append_eq]
        split
        · rw [run_steps_stopped _ _ _ _ _ _ rfl]
        · have harith : idx + (rest.length + 1) = idx + 1 + rest.length := by omega
          rw [harith]
          exact ih (idx + 1) _

/-- exceptFailed characterizes raised calls. -/
theorem exceptFailed_iff {α : Type} (x : Except PyExc α) :
    exceptFailed x = true ↔ ∃ e, x = .error e := by
  cases x with
  | ok v => simp [exceptFailed]
  | error e => simp [exceptFailed]

/-- When the dispatch reaches the probe, _execute_measurement_step is the
probe call itself, recorded in the trace. -/
theorem execute_measurement_step_dispatched (env : CycleEnv) (cfg : Configuration)
    (idx attempt : Nat) (step : MeasurementStep)
    (h : probe_dispatched cfg step = true) :
    execute_measurement_step env cfg idx attempt step =
      (env.probe idx attempt, [.probe_call idx attempt step.measurement_type]) := by
  unfold probe_dispatched at h
  unfold execute_measurement_step
  cases htype : step.measurement_type with
  | other v => rw [htype] at h; simp at h
  | known t =>
    rw [htype] at h
    cases t with
    | wifi_info => rfl
    | iperf_tcp => rfl
    | iperf_udp => rfl
    | ping =>
      simp only []
      cases hd : dictGet step.parameters "targets" (.strList cfg.target_ips) with
      | str s => rw [hd] at h; simp at h
      | int n => rw [hd] at h; simp at h
      | strList l =>
        cases l with
        | nil => rw [hd] at h; simp at h
        | cons a rest => rfl
    | file_transfer =>
      simp only []
      cases hd : dictGet step.parameters "protocol" (.str cfg.file_protocol.toLower) with
      | int n => rw [hd] at h; simp at h
      | strList l => rw [hd] at h; simp at h
      | str p =>
        simp [probe_dispatched, htype, hd] at h
        rcases h with ((h | h) | h) | h <;> simp [h]

/-- The trace contribution of one _execute_measurement_step call is either
empty (the dispatch raised) or the single probe event of this step. -/
theorem execute_measurement_step_trace (env : CycleEnv) (cfg : Configuration)
    (idx attempt : Nat) (step : MeasurementStep) :
    (execute_measurement_step env cfg idx attempt step).2 = [] ∨
    (execute_measurement_step env cfg idx attempt step).2 =
      [.probe_call idx attempt step.measurement_type] := by
  unfold execute_measurement_step
  cases htype : step.measurement_type with
  | other v => left; rfl
  | known t =>
    cases t with
    | wifi_info => right; rfl
    | iperf_tcp => right; rfl
    | iperf_udp => right; rfl
    | ping =>
      cases hd : dictGet step.parameters "targets" (.strList cfg.target_ips) with
      | str s => left; rfl
      | int n => left; rfl
      | strList l => cases l with
        | nil => left; rfl
        | cons a rest => right; rfl
    | file_transfer =>
      cases hd : dictGet step.parameters "protocol" (.str cfg.file_protocol.toLower) with
      | int n => left; rfl
      | strList l => left; rfl
      | str p =>
        by_cases hp : (p == "smb" || p == "ftp" || p == "http" || p == "https") = true
        · right; simp [hp]
        · left; simp [Bool.not_eq_true] at hp; simp [hp]

/-- The retry loop never touches the stopped flag. -/
theorem run_attempts_stopped (env : CycleEnv) (cfg : Configuration) (idx : Nat)
    (step : MeasurementStep) :
    ∀ f a st, ((run_attempts env cfg idx step st a f).1).stopped = st.stopped := by
  intro f
  induction f with
  | zero => intro a st; rfl
  | succ f ih =>
    intro a st
    simp only [run_attempts]
    rcases hres : (execute_measurement_step env cfg idx a step).1 with e | v
    · simp only [hres]
      split
      · rfl
      · exact ih (a + 1) _
    · simp only [hres]
      rcases hupd : update_measurement_result st.record step.measurement_type v with e2 | rec2
      · simp only [hupd]
        split
        · rfl
        · exact ih (a + 1) _
      · simp only [hupd]

/-- The retry loop writes only its own step kind into the status
mapping. -/
theorem run_attempts_statuses_ne (env : CycleEnv) (cfg : Configuration) (idx : Nat)
    (step : MeasurementStep) (k : PyMeasurementType)
    (hk : k ≠ step.measurement_type) :
    ∀ f a st, getStatus ((run_attempts env cfg idx step st a f).1).statuses k =
      getStatus st.statuses k := by
  intro f
  induction f with
  | zero => intro a st; rfl
  | succ f ih =>
    intro a st
    simp only [run_attempts]
    rcases hres : (execute_measurement_step env cfg idx a step).1 with e | v
    · simp only [hres]
      split
      · exact getStatus_setStatus_ne _ _ _ _ hk
      · exact ih (a + 1) _
    · simp only [hres]
      rcases hupd : update_measurement_result st.record step.measurement_type v with e2 | rec2
      · simp only [hupd]
        split
        · exact getStatus_setStatus_ne _ _ _ _ hk
        · exact ih (a + 1) _
      · simp only [hupd]
        exact getStatus_setStatus_ne _ _ _ _ hk

/-- The retry loop only appends to the trace, and the probe events it
appends all carry its own step index. -/
theorem run_attempts_trace_ext (env : CycleEnv) (cfg : Configuration) (idx : Nat)
    (step : MeasurementStep) :
    ∀ f a st, ∃ Δ, ((run_attempts env cfg idx step st a f).1).trace = st.trace ++ Δ ∧
      ∀ j, j ≠ idx → Δ.countP (isProbeAt j) = 0 := by
  intro f
  induction f with
  | zero =>
    intro a st
    exact ⟨[], by simp [run_attempts], by intro j hj; simp⟩
  | succ f ih =>
    intro a st
    have htr := execute_measurement_step_trace env cfg idx a step
    simp only [run_attempts]
    rcases hres : (execute_measurement_step env cfg idx a step).1 with e | v
    · simp only [hres]
      split
      · refine ⟨(execute_measurement_step env cfg idx a step).2 ++
          [.cb_on_error step.measurement_type], by simp, ?_⟩
        intro j hj
        rcases htr with htr | htr <;>
          simp [htr, isProbeAt, List.countP_cons, List.countP_append] <;> omega
      · obtain ⟨Δ2, hΔ2, hc2⟩ := ih (a + 1)
          { st with trace := st.trace ++ (execute_measurement_step env cfg idx a step).2 }
        refine ⟨(execute_measurement_step env cfg idx a step).2 ++ Δ2, ?_, ?_⟩
        · rw [hΔ2]; simp
        · intro j hj
          rcases htr with htr | htr <;>
            simp [htr, isProbeAt, List.countP_cons, List.countP_append, hc2 j hj] <;> omega
    · simp only [hres]
      rcases hupd : update_measurement_result st.record step.measurement_type v with e2 | rec2
      · simp only [hupd]
        split
        · refine ⟨(execute_measurement_step env cfg idx a step).2 ++
            [.cb_on_error step.measurement_type], by simp, ?_⟩
          intro j hj
          rcases htr with htr | htr <;>
            simp [htr, isProbeAt, List.countP_cons, List.countP_append] <;> omega
        · obtain ⟨Δ2, hΔ2, hc2⟩ := ih (a + 1)
            { st with trace := st.trace ++ (execute_measurement_step env cfg idx a step).2 }
          refine ⟨(execute_measurement_step env cfg idx a step).2 ++ Δ2, ?_, ?_⟩
          · rw [hΔ2]; simp
          · intro j hj
            rcases htr with htr | htr <;>
              simp [htr, isProbeAt, List.countP_cons, List.countP_append, hc2 j hj] <;> omega
      · simp only [hupd]
        refine ⟨(execute_measurement_step env cfg idx a step).2, by simp, ?_⟩
        intro j hj
        rcases htr with htr | htr <;>
          simp [htr, isProbeAt, List.countP_cons] <;> omega

/-- The retry loop only appends to the run's error list. -/
theorem run_attempts_errors_ext (env : CycleEnv) (cfg : Configuration) (idx : Nat)
    (step : MeasurementStep) :
    ∀ f a st, ∃ Δ, ((run_attempts env cfg idx step st a f).1).errors = st.errors ++ Δ := by
  intro f
  induction f with
  | zero => intro a st; exact ⟨[], by simp [run_attempts]⟩
  | succ f ih =>
    intro a st
    simp only [run_attempts]
    rcases hres : (execute_measurement_step env cfg idx a step).1 with e | v
    · simp only [hres]
      split
      · exact ⟨_, rfl⟩
      · obtain ⟨Δ, hΔ⟩ := ih (a + 1)
          { st with trace := st.trace ++ (execute_measurement_step env cfg idx a step).2 }
        exact ⟨Δ, hΔ⟩
    · simp only [hres]
      rcases hupd : update_measurement_result st.record step.measurement_type v with e2 | rec2
      · simp only [hupd]
        split
        · exact ⟨_, rfl⟩
        · obtain ⟨Δ, hΔ⟩ := ih (a + 1)
            { st with trace := st.trace ++ (execute_measurement_step env cfg idx a step).2 }
          exact ⟨Δ, hΔ⟩
      · simp only [hupd]
        exact ⟨[], by simp⟩

/-- Characterization of the retry loop when every attempt raises: the
status is set to failed, exactly one formatted error string is appended to
the run's error list and to the record's error list, the probe is invoked
once per attempt, and the loop reports failure. -/
theorem run_attempts_all_fail (env : CycleEnv) (cfg : Configuration) (idx : Nat)
    (step : MeasurementStep) (hdisp : probe_dispatched cfg step = true) :
    ∀ f a st, 1 ≤ f → a + f = step.retry_attempts →
    (∀ b, a ≤ b → b < step.retry_attempts → exceptFailed (env.probe idx b) = true) →
    ∃ msg Δ,
      run_attempts env cfg idx step st a f =
        ({ record := add_error st.record msg,
           statuses := setStatus st.statuses step.measurement_type .failed,
           errors := st.errors ++ [msg],
           trace := st.trace ++ Δ,
           stopped := st.stopped }, false) ∧
      Δ.countP (isProbeAt idx) = f ∧ ∀ j, j ≠ idx → Δ.countP (isProbeAt j) = 0 := by
  intro f
  induction f with
  | zero => intro a st h1; exact absurd h1 (by omega)
  | succ f ih =>
    intro a st h1 hsum hfail
    have hfa : exceptFailed (env.probe idx a) = true := hfail a (Nat.le_refl a) (by omega)
    rw [exceptFailed_iff] at hfa
    obtain ⟨e, he⟩ := hfa
    simp only [run_attempts, execute_measurement_step_dispatched env cfg idx a step hdisp, he]
    cases f with
    | zero =>
      have hlast : a + 1 = step.retry_attempts := by omega
      simp only [hlast, beq_self_eq_true, if_true]
      refine ⟨type_value step.measurement_type ++ " failed after " ++
          toString step.retry_attempts ++ " attempts: " ++ e.msg,
        [.probe_call idx a step.measurement_type, .cb_on_error step.measurement_type],
        ?_, ?_, ?_⟩
      · simp
      · simp [isProbeAt]
      · intro j hj
        simp [isProbeAt]
        omega
    | succ f2 =>
      have hne : (a + 1 == step.retry_attempts) = false := by simp; omega
      simp only [hne, Bool.false_eq_true, if_false]
      obtain ⟨msg, Δ2, heq, hc1, hc2⟩ := ih (a + 1)
        { st with trace := st.trace ++ [.probe_call idx a step.measurement_type] }
        (by omega) (by omega) (fun b hb1 hb2 => hfail b (by omega) hb2)
      refine ⟨msg, .probe_call idx a step.measurement_type :: Δ2, ?_, ?_, ?_⟩
      · rw [heq]
        simp
      · simp [isProbeAt, List.countP_cons, hc1]
      · intro j hj
        simp [isProbeAt, List.countP_cons, hc2 j hj]
        omega

/-- Characterization of the retry loop when the probe first succeeds at
attempt k and the result merge succeeds as well (the step's kind has a
writable record attribute): the merged record is installed, the status is
set to completed, no error string is appended, the probe was invoked
k - a + 1 times, and the loop reports success. -/
theorem run_attempts_succeeds (env : CycleEnv) (cfg : Configuration) (idx : Nat)
    (step : MeasurementStep) (hdisp : probe_dispatched cfg step = true) :
    ∀ f a st k v rec2, a ≤ k → k < a + f → a + f = step.retry_attempts →
    (∀ b, a ≤ b → b < k → exceptFailed (env.probe idx b) = true) →
    env.probe idx k = .ok v →
    update_measurement_result st.record step.measurement_type v = .ok rec2 →
    ∃ Δ,
      run_attempts env cfg idx step st a f =
        ({ record := rec2,
           statuses := setStatus st.statuses step.measurement_type .completed,
           errors := st.errors,
           trace := st.trace ++ Δ,
           stopped := st.stopped }, true) ∧
      Δ.countP (isProbeAt idx) = k - a + 1 ∧ ∀ j, j ≠ idx → Δ.countP (isProbeAt j) = 0 := by
  intro f
  induction f with
  | zero => intro a st k v rec2 hak hkf; exact absurd hkf (by omega)
  | succ f ih =>
    intro a st k v rec2 hak hkf hsum hfail hok hupd
    by_cases hkeq : a = k
    · subst hkeq
      simp only [run_attempts, execute_measurement_step_dispatched env cfg idx a step hdisp,
        hok, hupd]
      refine ⟨[.probe_call idx a step.measurement_type], ?_, ?_, ?_⟩
      · rfl
      · simp [isProbeAt]
      · intro j hj
        simp [isProbeAt]
        omega
    · have hfa : exceptFailed (env.probe idx a) = true :=
        hfail a (Nat.le_refl a) (by omega)
      rw [exceptFailed_iff] at hfa
      obtain ⟨e, he⟩ := hfa
      simp only [run_attempts, execute_measurement_step_dispatched env cfg idx a step hdisp, he]
      have hne : (a + 1 == step.retry_attempts) = false := by simp; omega
      simp only [hne, Bool.false_eq_true, if_false]
      obtain ⟨Δ2, heq, hc1, hc2⟩ := ih (a + 1)
        { st with trace := st.trace ++ [.probe_call idx a step.measurement_type] }
        k v rec2 (by omega) (by omega) (by omega)
        (fun b hb1 hb2 => hfail b (by omega) hb2) hok hupd
      refine ⟨.probe_call idx a step.measurement_type :: Δ2, ?_, ?_, ?_⟩
      · rw [heq]
        simp
      · simp [isProbeAt, List.countP_cons, hc1]
        omega
      · intro j hj
        simp [isProbeAt, List.countP_cons, hc2 j hj]
        omega

/-- The step loop only appends to the trace, and every probe event it
appends carries the index of one of its steps. -/
theorem run_steps_trace_ext (env : CycleEnv) (cfg : Configuration) (cont : Bool) :
    ∀ (l : List MeasurementStep) (idx : Nat) (st : LoopState), ∃ Δ,
      (run_steps env cfg cont idx l st).trace = st.trace ++ Δ ∧
      ∀ j, (j < idx ∨ idx + l.length ≤ j) → Δ.countP (isProbeAt j) = 0 := by
  intro l
  induction l with
  | nil => intro idx st; exact ⟨[], by simp [run_steps], by intro j hj; simp⟩
  | cons s rest ih =>
    intro idx st
    cases hstop : st.stopped with
    | true =>
      rw [run_steps_stopped env cfg cont idx (s :: rest) st hstop]
      exact ⟨[], by simp, by intro j hj; simp⟩
    | false =>
      cases hen : s.enabled with
      | false =>
        simp only [run_steps, hstop, hen, Bool.not_false, if_true, Bool.false_eq_true, if_false]
        obtain ⟨Δ, hΔ, hc⟩ := ih (idx + 1)
          { record := st.record, statuses := setStatus st.statuses s.measurement_type .skipped,
            errors := st.errors, trace := st.trace, stopped := false }
        refine ⟨Δ, hΔ, ?_⟩
        intro j hj
        refine hc j ?_
        rcases hj with hj | hj
        · left; omega
        · right; simp only [List.length_cons] at hj; omega
      | true =>
        simp only [run_steps, hstop, hen, Bool.not_true, Bool.false_eq_true, if_false]
        obtain ⟨Δa, hΔa, hca⟩ := run_attempts_trace_ext env cfg idx s s.retry_attempts 0
          { record := st.record,
            statuses := setStatus st.statuses s.measurement_type .in_progress,
            errors := st.errors,
            trace := st.trace ++ [TraceEv.cb_before_step s.measurement_type],
            stopped := false }
        split
        · refine ⟨[TraceEv.cb_before_step s.measurement_type] ++ Δa ++
            [TraceEv.cb_after_step s.measurement_type
              (run_attempts env cfg idx s
                { record := st.record,
                  statuses := setStatus st.statuses s.measurement_type .in_progress,
                  errors := st.errors,
                  trace := st.trace ++ [TraceEv.cb_before_step s.measurement_type],
                  stopped := false } 0 s.retry_attempts).2], ?_, ?_⟩
          · simp only [hΔa]
            simp
          · intro j hj
            have hji : j ≠ idx := by
              rcases hj with hj | hj
              · omega
              · simp only [List.length_cons] at hj; omega
            simp [List.countP_append, isProbeAt, hca j hji]
        · obtain ⟨Δr, hΔr, hcr⟩ := ih (idx + 1)
            { record := (run_attempts env cfg idx s
                { record := st.record,
                  statuses := setStatus st.statuses s.measurement_type .in_progress,
                  errors := st.errors,
                  trace := st.trace ++ [TraceEv.cb_before_step s.measurement_type],
                  stopped := false } 0 s.retry_attempts).1.record,
              statuses := (run_attempts env cfg idx s
                { record := st.record,
                  statuses := setStatus st.statuses s.measurement_type .in_progress,
                  errors := st.errors,
                  trace := st.trace ++ [TraceEv.cb_before_step s.measurement_type],
                  stopped := false } 0 s.retry_attempts).1.statuses,
              errors := (run_attempts env cfg idx s
                { record := st.record,
                  statuses := setStatus st.statuses s.measurement_type .in_progress,
                  errors := st.errors,
                  trace := st.trace ++ [TraceEv.cb_before_step s.measurement_type],
                  stopped := false } 0 s.retry_attempts).1.errors,
              trace := (run_attempts env cfg idx s
                { record := st.record,
                  statuses := setStatus st.statuses s.measurement_type .in_progress,
                  errors := st.errors,
                  trace := st.trace ++ [TraceEv.cb_before_step s.measurement_type],
                  stopped := false } 0 s.retry_attempts).1.trace ++
                [TraceEv.cb_after_step s.measurement_type
                  (run_attempts env cfg idx s
                    { record := st.record,
                      statuses := setStatus st.statuses s.measurement_type .in_progress,
                      errors := st.errors,
                      trace := st.trace ++ [TraceEv.cb_before_step s.measurement_type],
                      stopped := false } 0 s.retry_attempts).2],
              stopped := (run_attempts env cfg idx s
                { record := st.record,
                  statuses := setStatus st.statuses s.measurement_type .in_progress,
                  errors := st.errors,
                  trace := st.trace ++ [TraceEv.cb_before_step s.measurement_type],
                  stopped := false } 0 s.retry_attempts).1.stopped }
          refine ⟨[TraceEv.cb_before_step s.measurement_type] ++ Δa ++
            [TraceEv.cb_after_step s.measurement_type
              (run_attempts env cfg idx s
                { record := st.record,
                  statuses := setStatus st.statuses s.measurement_type .in_progress,
                  errors := st.errors,
                  trace := st.trace ++ [TraceEv.cb_before_step s.measurement_type],
                  stopped := false } 0 s.retry_attempts).2] ++ Δr, ?_, ?_⟩
          · rw [hΔr]
            simp only [hΔa]
            simp
          · intro j hj
            have hji : j ≠ idx := by
              rcases hj with hj | hj
              · omega
              · simp only [List.length_cons] at hj; omega
            have hjr : j < idx + 1 ∨ idx + 1 + rest.length ≤ j := by
              rcases hj with hj | hj
              · left; omega
              · right; simp only [List.length_cons] at hj; omega
            simp [List.countP_append, isProbeAt, hca j hji, hcr j hjr]

/-- The step loop only appends to the run's error list. -/
theorem run_steps_errors_ext (env : CycleEnv) (cfg : Configuration) (cont : Bool) :
    ∀ (l : List MeasurementStep) (idx : Nat) (st : LoopState), ∃ Δ,
      (run_steps env cfg cont idx l st).errors = st.errors ++ Δ := by
  intro l
  induction l with
  | nil => intro idx st; exact ⟨[], by simp [run_steps]⟩
  | cons s rest ih =>
    intro idx st
    cases hstop : st.stopped with
    | true =>
      rw [run_steps_stopped env cfg cont idx (s :: rest) st hstop]
      exact ⟨[], by simp⟩
    | false =>
      cases hen : s.enabled with
      | false =>
        simp only [run_steps, hstop, hen, Bool.not_false, if_true, Bool.false_eq_true, if_false]
        obtain ⟨Δ, hΔ⟩ := ih (idx + 1)
          { record := st.record, statuses := setStatus st.statuses s.measurement_type .skipped,
            errors := st.errors, trace := st.trace, stopped := false }
        exact ⟨Δ, hΔ⟩
      | true =>
        simp only [run_steps, hstop, hen, Bool.not_true, Bool.false_eq_true, if_false]
        obtain ⟨Δa, hΔa⟩ := run_attempts_errors_ext env cfg idx s s.retry_attempts 0
          { record := st.record,
            statuses := setStatus st.statuses s.measurement_type .in_progress,
            errors := st.errors,
            trace := st.trace ++ [TraceEv.cb_before_step s.measurement_type],
            stopped := false }
        split
        · exact ⟨Δa, hΔa⟩
        · obtain ⟨Δr, hΔr⟩ := ih (idx + 1) _
          refine ⟨Δa ++ Δr, ?_⟩
          rw [hΔr]
          simp only [hΔa]
          simp

/-- Steps of other kinds never touch a given kind's entry in the status
mapping. -/
theorem run_steps_statuses_ne (env : CycleEnv) (cfg : Configuration) (cont : Bool)
    (K : PyMeasurementType) :
    ∀ (l : List MeasurementStep) (idx : Nat) (st : LoopState),
      (∀ s, s ∈ l → s.measurement_type ≠ K) →
      getStatus (run_steps env cfg cont idx l st).statuses K = getStatus st.statuses K := by
  intro l
  induction l with
  | nil => intro idx st hk; rfl
  | cons s rest ih =>
    intro idx st hk
    have hks : K ≠ s.measurement_type := fun h => hk s (by simp) h.symm
    have hkr : ∀ s2, s2 ∈ rest → s2.measurement_type ≠ K := fun s2 hs2 => hk s2 (by simp [hs2])
    cases hstop : st.stopped with
    | true => rw [run_steps_stopped env cfg cont idx (s :: rest) st hstop]
    | false =>
      cases hen : s.enabled with
      | false =>
        simp only [run_steps, hstop, hen, Bool.not_false, if_true, Bool.false_eq_true, if_false]
        rw [ih (idx + 1) _ hkr]
        exact getStatus_setStatus_ne _ _ _ _ hks
      | true =>
        simp only [run_steps, hstop, hen, Bool.not_true, Bool.false_eq_true, if_false]
        have hA := run_attempts_statuses_ne env cfg idx s K hks s.retry_attempts 0
          { record := st.record,
            statuses := setStatus st.statuses s.measurement_type .in_progress,
            errors := st.errors,
            trace := st.trace ++ [TraceEv.cb_before_step s.measurement_type],
            stopped := false }
        split
        · rw [hA]
          exact getStatus_setStatus_ne _ _ _ _ hks
        · rw [ih (idx + 1) _ hkr]
          rw [hA]
          exact getStatus_setStatus_ne _ _ _ _ hks

/-- The early-return path of execute_measurement_cycle: validation failed
with continue_on_failure false.  The returned outcome carries the issues
as its error list, an empty status mapping and zero elapsed time; the
finally block still runs cleanup (whose warnings reach the returned
outcome through the aliased warning list) and fires the after_measurement
callbacks. -/
theorem cycle_early (env : CycleEnv) (cfg : Configuration) (seq : MeasurementSequence)
    (mid : String) (issues : List String)
    (hv : seq.validate_prerequisites = true)
    (hval : validate_prerequisites cfg env.venv = .ok (false, issues))
    (hc : seq.continue_on_failure = false) :
    execute_measurement_cycle env cfg seq mid =
      .ok ({ measurement_id := mid, measurement_result := { measurement_id := mid },
             step_results := [], execution_time := 0, errors := issues,
             warnings := (run_cleanup env seq).1 },
           [TraceEv.cb_before_measurement, TraceEv.validation_run] ++
             (run_cleanup env seq).2 ++ [TraceEv.cb_after_measurement]) := by
  simp [execute_measurement_cycle, try_body, hv, hval, hc]

/-- Any run that passes the prerequisite gate executes the step loop from
the initial loop state, then export, then cleanup and the final
callbacks.  This characterizes the returned outcome and trace. -/
theorem cycle_run_shape (env : CycleEnv) (cfg : Configuration) (seq : MeasurementSequence)
    (mid : String) (h : gate_proceeds env cfg seq = true) :
    execute_measurement_cycle env cfg seq mid =
      .ok ({ measurement_id := mid,
             measurement_result := (run_export env seq (run_steps env cfg
               seq.continue_on_failure 0 seq.steps (init_loop_state env cfg seq mid))).record,
             step_results := (run_export env seq (run_steps env cfg
               seq.continue_on_failure 0 seq.steps (init_loop_state env cfg seq mid))).statuses,
             execution_time := env.elapsed,
             errors := (run_export env seq (run_steps env cfg
               seq.continue_on_failure 0 seq.steps (init_loop_state env cfg seq mid))).errors,
             warnings := init_warnings env cfg seq ++ (run_cleanup env seq).1 },
           (run_export env seq (run_steps env cfg
               seq.continue_on_failure 0 seq.steps (init_loop_state env cfg seq mid))).trace ++
             (run_cleanup env seq).2 ++ [TraceEv.cb_after_measurement]) := by
  obtain ⟨issues, hval⟩ := validate_prerequisites_shape cfg env.venv
  cases hv : seq.validate_prerequisites with
  | false =>
    simp only [execute_measurement_cycle, try_body, run_main, hv, Bool.false_eq_true, if_false,
      init_loop_state, init_errors, init_warnings, init_trace]
  | true =>
    rw [gate_proceeds, hv, hval] at h
    cases hok : (issues.length == 0 : Bool) with
    | true =>
      rw [hok] at hval
      simp only [execute_measurement_cycle, try_body, run_main, hv, if_true, hval,
        Bool.not_true, Bool.false_eq_true, if_false,
        init_loop_state, init_errors, init_warnings, init_trace]
      simp
    | false =>
      rw [hok] at hval
      simp only [hok] at h
      simp only [Bool.not_true, Bool.false_or, Bool.false_eq_true] at h
      simp only [execute_measurement_cycle, try_body, run_main, hv, if_true, hval,
        Bool.not_false, Bool.false_eq_true, if_false, h,
        init_loop_state, init_errors, init_warnings, init_trace]
      simp

/-- The export block leaves record and statuses untouched and only appends
to errors and trace; its trace contribution holds no probe events. -/
theorem run_export_shape (env : CycleEnv) (seq : MeasurementSequence) (st : LoopState) :
    ∃ Δe Δt, run_export env seq st =
      { record := st.record, statuses := st.statuses, errors := st.errors ++ Δe,
        trace := st.trace ++ Δt, stopped := st.stopped } ∧
      ∀ j, Δt.countP (isProbeAt j) = 0 := by
  unfold run_export
  cases hex : seq.export_results with
  | false => exact ⟨[], [], by simp, by intro j; simp⟩
  | true =>
    cases hc : env.export_measurement with
    | ok u => exact ⟨[], [.export_call], by simp, by intro j; simp [isProbeAt]⟩
    | error e =>
      exact ⟨["Failed to export measurement results: " ++ e.msg], [.export_call],
        by simp, by intro j; simp [isProbeAt]⟩

/-- The cleanup block contributes at most a cleanup event (never a probe
event), and a warning exactly when the cleanup call raises. -/
theorem run_cleanup_shape (env : CycleEnv) (seq : MeasurementSequence) :
    ((run_cleanup env seq).2 = [] ∨ (run_cleanup env seq).2 = [.cleanup_call]) ∧
    (seq.cleanup_on_exit = true →
      (∀ e, env.cleanup = .error e → (run_cleanup env seq).1 = ["Cleanup failed: " ++ e.msg]) ∧
      (∀ u, env.cleanup = .ok u → (run_cleanup env seq).1 = [])) := by
  unfold run_cleanup
  cases hce : seq.cleanup_on_exit with
  | false => exact ⟨Or.inl rfl, by simp⟩
  | true =>
    cases hc : env.cleanup with
    | ok u =>
      refine ⟨Or.inr rfl, fun _ => ⟨?_, ?_⟩⟩
      · intro e he; exact absurd he (by simp)
      · intro u2 hu; rfl
    | error e =>
      refine ⟨Or.inr rfl, fun _ => ⟨?_, ?_⟩⟩
      · intro e2 he
        have he2 : e = e2 := by injection he
        rw [← he2]
        rfl
      · intro u2 hu; exact absurd hu (by simp)

/-- A dispatched step has one of the five known kinds. -/
theorem probe_dispatched_known (cfg : Configuration) (step : MeasurementStep)
    (h : probe_dispatched cfg step = true) :
    ∃ t, step.measurement_type = .known t := by
  unfold probe_dispatched at h
  cases htype : step.measurement_type with
  | known t => exact ⟨t, rfl⟩
  | other v => rw [htype] at h; simp at h

/-- The filtering loop of create_custom_sequence is a filter followed by a
per-step override map. -/
theorem custom_steps_loop_eq (en : List MeasurementType)
    (tov : List (MeasurementType × Int)) (pov : List (MeasurementType × PyDict)) :
    ∀ l, custom_steps_loop en tov pov l =
      (l.filter (fun s => kind_mem s.measurement_type en)).map (build_custom_step tov pov) := by
  intro l
  induction l with
  | nil => rfl
  | cons s rest ih =>
    cases hm : kind_mem s.measurement_type en with
    | true => simp [custom_steps_loop, hm, List.filter_cons, ih]
    | false => simp [custom_steps_loop, hm, List.filter_cons, ih]

/-- The filtering loop depends on the enabled set only through
membership. -/
theorem custom_steps_loop_congr (e1 e2 : List MeasurementType)
    (tov : List (MeasurementType × Int)) (pov : List (MeasurementType × PyDict))
    (h : ∀ t, e1.contains t = e2.contains t) :
    ∀ l, custom_steps_loop e1 tov pov l = custom_steps_loop e2 tov pov l := by
  intro l
  have hkm : ∀ pt, kind_mem pt e1 = kind_mem pt e2 := by
    intro pt
    cases pt with
    | known k => simp only [kind_mem]; exact h k
    | other v => rfl
  induction l with
  | nil => rfl
  | cons s rest ih => simp [custom_steps_loop, hkm s.measurement_type, ih]

/-- The override application preserves the step's kind. -/
theorem build_custom_step_type (tov : List (MeasurementType × Int))
    (pov : List (MeasurementType × PyDict)) (s : MeasurementStep) :
    (build_custom_step tov pov s).measurement_type = s.measurement_type := by
  unfold build_custom_step
  cases kind_lookup tov s.measurement_type <;>
    cases kind_lookup pov s.measurement_type <;> rfl

/-- The override application always yields an enabled step. -/
theorem build_custom_step_enabled (tov : List (MeasurementType × Int))
    (pov : List (MeasurementType × PyDict)) (s : MeasurementStep) :
    (build_custom_step tov pov s).enabled = true := by
  unfold build_custom_step
  cases kind_lookup tov s.measurement_type <;>
    cases kind_lookup pov s.measurement_type <;> rfl

/-- C1 counterexample: a Plan containing a Step of an unknown probe kind.
The claim asserts the unknown-kind error fails loudly outside the Run
Outcome; in the code the ValueError raised by the final else branch of
_execute_measurement_step is caught by the per-attempt except handler, so
the run returns normally with the step recorded as failed and the error
folded into the outcome's error list. -/
theorem C1_counterexample :
    execute_measurement_cycle envBase cfg0 seqU "m" =
      .ok ({ measurement_id := "m",
             measurement_result :=
               { measurement_id := "m",
                 errors := ["bogus failed after 1 attempts: Unknown measurement type: bogus"] },
             step_results := [(.other "bogus", .failed)],
             execution_time := 5,
             errors := ["bogus failed after 1 attempts: Unknown measurement type: bogus"],
             warnings := [] },
           [.cb_before_measurement, .cb_before_step (.other "bogus"),
            .cb_on_error (.other "bogus"), .cb_after_step (.other "bogus") false,
            .cb_after_measurement]) := by
  rfl

/-- C1 (amended): the engine never lets an exception escape a run
invocation, with no exception at all — even a Step whose probe kind is
unknown does not fail loudly; its ValueError is caught inside the retry
loop and recorded as a step failure in the Run Outcome (see the
counterexample).  Every invocation of execute_measurement_cycle returns a
Run Outcome. -/
theorem C1_never_escapes :
    ∀ (env : CycleEnv) (cfg : Configuration) (seq : MeasurementSequence) (mid : String),
    ∃ out, execute_measurement_cycle env cfg seq mid = .ok out := by
  intro env cfg seq mid
  obtain ⟨issues, hval⟩ := validate_prerequisites_shape cfg env.venv
  cases hv : seq.validate_prerequisites with
  | false =>
    have hg : gate_proceeds env cfg seq = true := by simp [gate_proceeds, hv]
    exact ⟨_, cycle_run_shape env cfg seq mid hg⟩
  | true =>
    cases hok : (issues.length == 0 : Bool) with
    | true =>
      rw [hok] at hval
      have hg : gate_proceeds env cfg seq = true := by simp [gate_proceeds, hv, hval]
      exact ⟨_, cycle_run_shape env cfg seq mid hg⟩
    | false =>
      rw [hok] at hval
      cases hc : seq.continue_on_failure with
      | true =>
        have hg : gate_proceeds env cfg seq = true := by simp [gate_proceeds, hv, hval, hc]
        exact ⟨_, cycle_run_shape env cfg seq mid hg⟩
      | false =>
        exact ⟨_, cycle_early env cfg seq mid issues hv hval hc⟩

/-- C2 counterexample: the throughput-server availability check raises an
exception that is not the server-unavailable class.  The claim asserts
validate_prerequisites propagates it; in the code the outer
except-Exception handler of validate_prerequisites catches it and folds it
into the issue list, and the call returns normally. -/
theorem C2_counterexample :
    validate_prerequisites cfg0 venvBoom =
      .ok (false, ["Unexpected error during validation: boom"]) := by
  rfl

/-- C2 (amended): an exception from the server availability check that is
not IperfServerUnavailableError is not propagated either: it is caught by
the validator's outer generic handler, recorded as an "Unexpected error
during validation" issue, and validate_prerequisites returns normally with
the validation marked failed. -/
theorem C2_not_propagated :
    ∀ (cfg : Configuration) (env : ValidateEnv) (e : PyExc) (c r : Bool),
    env.is_connected = .ok c →
    env.is_host_reachable = .ok r →
    env.check_iperf_server_availability = .error e →
    (∀ m, e ≠ .iperfServerUnavailableError m) →
    ∃ pre, validate_prerequisites cfg env =
      .ok (false, pre ++ ["Unexpected error during validation: " ++ e.msg]) := by
  intro cfg env e c r h1 h2 h3 hne
  have harm : ∀ issues, validate_checks cfg env = (issues, some e) →
      ∃ pre, validate_prerequisites cfg env =
        .ok (false, pre ++ ["Unexpected error during validation: " ++ e.msg]) := by
    intro issues hch
    refine ⟨issues, ?_⟩
    simp [validate_prerequisites, hch]
  cases e with
  | iperfServerUnavailableError m => exact absurd rfl (hne m)
  | valueError m =>
    cases c with
    | true =>
      cases htips : cfg.target_ips with
      | nil => exact harm [] (by simp [validate_checks, h1, h2, h3, htips, Id.run])
      | cons p rest =>
        cases r with
        | true => exact harm [] (by simp [validate_checks, h1, h2, h3, htips, Id.run])
        | false =>
          exact harm ["Primary target " ++ p ++ " is not reachable"]
            (by simp [validate_checks, h1, h2, h3, htips, Id.run])
    | false =>
      cases htips : cfg.target_ips with
      | nil =>
        exact harm ["WiFi interface is not connected"]
          (by simp [validate_checks, h1, h2, h3, htips, Id.run])
      | cons p rest =>
        cases r with
        | true =>
          exact harm ["WiFi interface is not connected"]
            (by simp [validate_checks, h1, h2, h3, htips, Id.run])
        | false =>
          exact harm ["WiFi interface is not connected",
              "Primary target " ++ p ++ " is not reachable"]
            (by simp [validate_checks, h1, h2, h3, htips, Id.run])
  | attributeError m =>
    cases c with
    | true =>
      cases htips : cfg.target_ips with
      | nil => exact harm [] (by simp [validate_checks, h1, h2, h3, htips, Id.run])
      | cons p rest =>
        cases r with
        | true => exact harm [] (by simp [validate_checks, h1, h2, h3, htips, Id.run])
        | false =>
          exact harm ["Primary target " ++ p ++ " is not reachable"]
            (by simp [validate_checks, h1, h2, h3, htips, Id.run])
    | false =>
      cases htips : cfg.target_ips with
      | nil =>
        exact harm ["WiFi interface is not connected"]
          (by simp [validate_checks, h1, h2, h3, htips, Id.run])
      | cons p rest =>
        cases r with
        | true =>
          exact harm ["WiFi interface is not connected"]
            (by simp [validate_checks, h1, h2, h3, htips, Id.run])
        | false =>
          exact harm ["WiFi interface is not connected",
              "Primary target " ++ p ++ " is not reachable"]
            (by simp [validate_checks, h1, h2, h3, htips, Id.run])
  | otherExc m =>
    cases c with
    | true =>
      cases htips : cfg.target_ips with
      | nil => exact harm [] (by simp [validate_checks, h1, h2, h3, htips, Id.run])
      | cons p rest =>
        cases r with
        | true => exact harm [] (by simp [validate_checks, h1, h2, h3, htips, Id.run])
        | false =>
          exact harm ["Primary target " ++ p ++ " is not reachable"]
            (by simp [validate_checks, h1, h2, h3, htips, Id.run])
    | false =>
      cases htips : cfg.target_ips with
      | nil =>
        exact harm ["WiFi interface is not connected"]
          (by simp [validate_checks, h1, h2, h3, htips, Id.run])
      | cons p rest =>
        cases r with
        | true =>
          exact harm ["WiFi interface is not connected"]
            (by simp [validate_checks, h1, h2, h3, htips, Id.run])
        | false =>
          exact harm ["WiFi interface is not connected",
              "Primary target " ++ p ++ " is not reachable"]
            (by simp [validate_checks, h1, h2, h3, htips, Id.run])

/-- C3 counterexample: a run with validation enabled whose validation
fails and whose continue_on_failure is false.  The claim asserts the
before_run event is never fired on this path; in the code the
before_measurement callbacks fire before the prerequisite validation, so
the returned trace starts with the before_run event, followed by the
validation call, even though the run returns early. -/
theorem C3_counterexample :
    execute_measurement_cycle envGateCont cfg0 seqC3 "m" =
      .ok ({ measurement_id := "m", measurement_result := { measurement_id := "m" },
             step_results := [], execution_time := 0,
             errors := ["WiFi interface is not connected"], warnings := [] },
           [.cb_before_measurement, .validation_run, .cb_after_measurement]) := by
  rfl

/-- C3 (amended): in every run with validate_prerequisites enabled, the
before_run event fires before prerequisite validation (the trace starts
with before_run followed by the validation call); in particular on the
early-return path the before_run event has already fired. -/
theorem C3_before_run_first :
    ∀ (env : CycleEnv) (cfg : Configuration) (seq : MeasurementSequence) (mid : String),
    seq.validate_prerequisites = true →
    ∃ out, execute_measurement_cycle env cfg seq mid = .ok out ∧
      ∃ rest, out.2 = TraceEv.cb_before_measurement :: TraceEv.validation_run :: rest := by
  intro env cfg seq mid hv
  obtain ⟨issues, hval⟩ := validate_prerequisites_shape cfg env.venv
  have hproceeds : gate_proceeds env cfg seq = true →
      ∃ out, execute_measurement_cycle env cfg seq mid = .ok out ∧
        ∃ rest, out.2 = TraceEv.cb_before_measurement :: TraceEv.validation_run :: rest := by
    intro hg
    obtain ⟨Δ, hΔ, _⟩ := run_steps_trace_ext env cfg seq.continue_on_failure seq.steps 0
      (init_loop_state env cfg seq mid)
    obtain ⟨Δe, Δt, hexp, _⟩ := run_export_shape env seq
      (run_steps env cfg seq.continue_on_failure 0 seq.steps (init_loop_state env cfg seq mid))
    refine ⟨_, cycle_run_shape env cfg seq mid hg,
      Δ ++ Δt ++ (run_cleanup env seq).2 ++ [.cb_after_measurement], ?_⟩
    rw [hexp]
    simp only [hΔ]
    simp [init_loop_state, init_trace, hv]
  cases hok : (issues.length == 0 : Bool) with
  | true =>
    rw [hok] at hval
    exact hproceeds (by simp [gate_proceeds, hv, hval])
  | false =>
    rw [hok] at hval
    cases hc : seq.continue_on_failure with
    | true => exact hproceeds (by simp [gate_proceeds, hv, hval, hc])
    | false =>
      refine ⟨_, cycle_early env cfg seq mid issues hv hval hc,
        (run_cleanup env seq).2 ++ [.cb_after_measurement], ?_⟩
      simp

/-- C4 counterexample: validation fails, continue_on_failure is true.
The claim asserts the issues are downgraded to warnings and not recorded
in the error list; in the code errors.extend(issues) runs before the
continue_on_failure branch, so the issues appear in the error list as
well. -/
theorem C4_counterexample :
    execute_measurement_cycle envGateCont cfg0 seqGateCont "m" =
      .ok ({ measurement_id := "m", measurement_result := { measurement_id := "m" },
             step_results := [], execution_time := 5,
             errors := ["WiFi interface is not connected"],
             warnings := ["WiFi interface is not connected"] },
           [.cb_before_measurement, .validation_run, .cb_after_measurement]) := by
  rfl

/-- C4 (amended): when validation fails and continue_on_failure is true,
the issues are appended to both the error list and the warning list of the
Run Outcome, and the run proceeds to the step loop. -/
theorem C4_issues_in_both_lists :
    ∀ (env : CycleEnv) (cfg : Configuration) (seq : MeasurementSequence) (mid : String)
      (issues : List String),
    seq.validate_prerequisites = true →
    validate_prerequisites cfg env.venv = .ok (false, issues) →
    seq.continue_on_failure = true →
    ∃ r tr, execute_measurement_cycle env cfg seq mid = .ok (r, tr) ∧
      issues <+: r.errors ∧ issues <+: r.warnings ∧
      r.step_results = (run_export env seq (run_steps env cfg true 0 seq.steps
        (init_loop_state env cfg seq mid))).statuses := by
  intro env cfg seq mid issues hv hval hc
  have hg : gate_proceeds env cfg seq = true := by simp [gate_proceeds, hv, hval, hc]
  obtain ⟨Δs, hΔs⟩ := run_steps_errors_ext env cfg seq.continue_on_failure seq.steps 0
    (init_loop_state env cfg seq mid)
  obtain ⟨Δe, Δt, hexp, _⟩ := run_export_shape env seq
    (run_steps env cfg seq.continue_on_failure 0 seq.steps (init_loop_state env cfg seq mid))
  have hinite : init_errors env cfg seq = issues := by simp [init_errors, hv, hval]
  have hinitw : init_warnings env cfg seq = issues := by simp [init_warnings, hv, hval, hc]
  refine ⟨_, _, cycle_run_shape env cfg seq mid hg, ?_, ?_, ?_⟩
  · rw [hexp]
    simp only [hΔs]
    simp [init_loop_state, hinite, List.append_assoc]
  · simp [hinitw]
  · rw [hc]

/-- C7: validation fails with continue_on_failure false.  The returned
Run Outcome carries exactly the validation issues as its error list (and
they are non-empty), an empty Step-Status mapping, zero elapsed time, and
the trace shows no step activity (no step was attempted). -/
theorem C7_early_return_outcome :
    ∀ (env : CycleEnv) (cfg : Configuration) (seq : MeasurementSequence) (mid : String)
      (issues : List String),
    seq.validate_prerequisites = true →
    validate_prerequisites cfg env.venv = .ok (false, issues) →
    seq.continue_on_failure = false →
    ∃ r tr, execute_measurement_cycle env cfg seq mid = .ok (r, tr) ∧
      r.errors = issues ∧ issues ≠ [] ∧ r.step_results = [] ∧ r.execution_time = 0 ∧
      tr.countP isStepActivity = 0 := by
  intro env cfg seq mid issues hv hval hc
  obtain ⟨issues0, hsh⟩ := validate_prerequisites_shape cfg env.venv
  rw [hval] at hsh
  injection hsh with hp
  have h1 : false = (issues0.length == 0 : Bool) := congrArg Prod.fst hp
  have h2 : issues = issues0 := congrArg Prod.snd hp
  have hne : issues ≠ [] := by
    intro habs
    rw [← h2, habs] at h1
    simp at h1
  refine ⟨_, _, cycle_early env cfg seq mid issues hv hval hc, rfl, hne, rfl, rfl, ?_⟩
  rcases (run_cleanup_shape env seq).1 with htc | htc <;>
    simp [htc, isStepActivity]

/-- C10: on the early-return path of the prerequisite gate, the cleanup
call (when cleanup_on_exit is set) and the after-run callbacks still run
before the Run Outcome is returned — they appear in the returned trace —
and a cleanup failure on this path lands in the returned outcome's warning
list (the early result object shares its warning list with the finally
block). -/
theorem C10_finally_on_early_return :
    ∀ (env : CycleEnv) (cfg : Configuration) (seq : MeasurementSequence) (mid : String)
      (issues : List String),
    seq.validate_prerequisites = true →
    validate_prerequisites cfg env.venv = .ok (false, issues) →
    seq.continue_on_failure = false →
    seq.cleanup_on_exit = true →
    ∃ r, execute_measurement_cycle env cfg seq mid =
      .ok (r, [TraceEv.cb_before_measurement, TraceEv.validation_run,
               TraceEv.cleanup_call, TraceEv.cb_after_measurement]) ∧
      (∀ e, env.cleanup = .error e → r.warnings = ["Cleanup failed: " ++ e.msg]) ∧
      (∀ u, env.cleanup = .ok u → r.warnings = []) := by
  intro env cfg seq mid issues hv hval hc hcl
  have htrc : (run_cleanup env seq).2 = [.cleanup_call] := by
    unfold run_cleanup
    rw [hcl]
    cases env.cleanup <;> simp
  have hce := cycle_early env cfg seq mid issues hv hval hc
  rw [htrc] at hce
  exact ⟨_, hce, ((run_cleanup_shape env seq).2 hcl).1, ((run_cleanup_shape env seq).2 hcl).2⟩

/-- Witness for C2: the amended behaviour at a concrete environment whose
server check raises a generic exception. -/
theorem C2_witness :
    ∃ pre, validate_prerequisites cfg0 venvBoom =
      .ok (false, pre ++ ["Unexpected error during validation: " ++
        PyExc.msg (.otherExc "boom")]) :=
  C2_not_propagated cfg0 venvBoom (.otherExc "boom") true true rfl rfl rfl
    (by intro m; simp)

/-- Witness for C3: the amended ordering at a concrete failing-gate
run. -/
theorem C3_witness :
    ∃ out, execute_measurement_cycle envGateCont cfg0 seqC3 "m" = .ok out ∧
      ∃ rest, out.2 = TraceEv.cb_before_measurement :: TraceEv.validation_run :: rest :=
  C3_before_run_first envGateCont cfg0 seqC3 "m" rfl

/-- Witness for C4: the amended behaviour at a concrete run with a failing
gate and continue_on_failure true. -/
theorem C4_witness :
    ∃ r tr, execute_measurement_cycle envGateCont cfg0 seqGateCont "m" = .ok (r, tr) ∧
      ["WiFi interface is not connected"] <+: r.errors ∧
      ["WiFi interface is not connected"] <+: r.warnings ∧
      r.step_results = (run_export envGateCont seqGateCont (run_steps envGateCont cfg0 true 0
        seqGateCont.steps (init_loop_state envGateCont cfg0 seqGateCont "m"))).statuses :=
  C4_issues_in_both_lists envGateCont cfg0 seqGateCont "m"
    ["WiFi interface is not connected"] rfl rfl rfl

/-- Witness for C7 at a concrete failing-gate run. -/
theorem C7_witness :
    ∃ r tr, execute_measurement_cycle envFailGate cfg0 seqGate "m" = .ok (r, tr) ∧
      r.errors = ["WiFi interface is not connected"] ∧
      ["WiFi interface is not connected"] ≠ ([] : List String) ∧
      r.step_results = [] ∧ r.execution_time = 0 ∧
      tr.countP isStepActivity = 0 :=
  C7_early_return_outcome envFailGate cfg0 seqGate "m"
    ["WiFi interface is not connected"] rfl rfl rfl

/-- Witness for C10 at a concrete failing-gate run whose cleanup call
raises. -/
theorem C10_witness :
    ∃ r, execute_measurement_cycle envFailGate cfg0 seqGate "m" =
      .ok (r, [TraceEv.cb_before_measurement, TraceEv.validation_run,
               TraceEv.cleanup_call, TraceEv.cb_after_measurement]) ∧
      (∀ e, envFailGate.cleanup = .error e → r.warnings = ["Cleanup failed: " ++ e.msg]) ∧
      (∀ u, envFailGate.cleanup = .ok u → r.warnings = []) :=
  C10_finally_on_early_return envFailGate cfg0 seqGate "m"
    ["WiFi interface is not connected"] rfl rfl rfl rfl

/-- C8: create_custom_sequence keeps exactly the default-plan steps whose
kind is in the enabled set, in the default order, with per-kind timeout
and parameter overrides applied; the result depends on the enabled set
only through membership (not order), and every remaining step is enabled
with a selected kind — excluded kinds leave no disabled placeholder. -/
theorem C8_custom_plan :
    ∀ (cfg : Configuration) (enabled : List MeasurementType)
      (tov : List (MeasurementType × Int)) (pov : List (MeasurementType × PyDict)),
    (create_custom_sequence cfg enabled tov pov).steps =
      ((create_default_sequence cfg).steps.filter
        (fun s => kind_mem s.measurement_type enabled)).map (build_custom_step tov pov) ∧
    (∀ enabled2, (∀ t, enabled.contains t = enabled2.contains t) →
      create_custom_sequence cfg enabled tov pov =
        create_custom_sequence cfg enabled2 tov pov) ∧
    (∀ s, s ∈ (create_custom_sequence cfg enabled tov pov).steps →
      s.enabled = true ∧ kind_mem s.measurement_type enabled = true) := by
  intro cfg enabled tov pov
  refine ⟨?_, ?_, ?_⟩
  · simp [create_custom_sequence, custom_steps_loop_eq]
  · intro e2 h
    simp [create_custom_sequence, custom_steps_loop_congr enabled e2 tov pov h]
  · intro s hs
    simp only [create_custom_sequence, custom_steps_loop_eq] at hs
    obtain ⟨s0, hs0, rfl⟩ := List.mem_map.mp hs
    have hf := List.mem_filter.mp hs0
    refine ⟨build_custom_step_enabled tov pov s0, ?_⟩
    rw [build_custom_step_type]
    exact hf.2

/-- Witness for C8 at the concrete default configuration: selecting just
the link-info kind, and order-independence against a duplicated enabled
list. -/
theorem C8_witness :
    (create_custom_sequence cfg0 [MeasurementType.wifi_info] [] []).steps =
      ((create_default_sequence cfg0).steps.filter
        (fun s => kind_mem s.measurement_type [MeasurementType.wifi_info])).map
        (build_custom_step [] []) ∧
    create_custom_sequence cfg0 [MeasurementType.wifi_info] [] [] =
      create_custom_sequence cfg0 [MeasurementType.wifi_info, MeasurementType.wifi_info]
        [] [] := by
  obtain ⟨h1, h2, h3⟩ := C8_custom_plan cfg0 [MeasurementType.wifi_info] [] []
  exact ⟨h1, h2 [MeasurementType.wifi_info, MeasurementType.wifi_info]
    (by intro t; cases t <;> rfl)⟩

/-- C5 counterexample: a Plan with two Steps of the same probe kind, the
first succeeding, the second failing.  After the first step the kind's
entry is the terminal status completed; after the second step it has been
overwritten to failed — a transition out of a terminal state within one
run. -/
theorem C5_counterexample :
    statuses_after envDup cfg0 true seqDup.steps st0m 1 =
      [(.known .wifi_info, .completed)] ∧
    statuses_after envDup cfg0 true seqDup.steps st0m 2 =
      [(.known .wifi_info, .failed)] ∧
    terminal .completed = true := by
  exact ⟨rfl, rfl, rfl⟩

/-- C5 (amended): the no-exit-from-terminal property holds for every Plan
whose steps have pairwise distinct probe kinds (the Step-Status mapping is
keyed by kind, so a second Step of the same kind re-enters in-progress and
overwrites the earlier terminal entry; with distinct kinds this cannot
happen).  Once a kind's entry is terminal after step i, it is unchanged at
every later point of the run. -/
theorem C5_terminal_persistent :
    ∀ (env : CycleEnv) (cfg : Configuration) (cont : Bool)
      (steps : List MeasurementStep) (st0 : LoopState) (K : PyMeasurementType)
      (v : MeasurementStatus) (i j : Nat),
    st0.statuses = [] →
    (steps.map (fun s => s.measurement_type)).Nodup →
    i ≤ j →
    getStatus (statuses_after env cfg cont steps st0 i) K = some v →
    terminal v = true →
    getStatus (statuses_after env cfg cont steps st0 j) K = some v := by
  intro env cfg cont steps st0 K v i j h0 hnd hij hi hterm
  unfold statuses_after at hi ⊢
  have hKin : ∃ s, s ∈ steps.take i ∧ s.measurement_type = K := by
    by_contra hno
    push_neg at hno
    have hpres := run_steps_statuses_ne env cfg cont K (steps.take i) 0 st0
      (fun s hs => hno s hs)
    rw [hpres, h0] at hi
    simp [getStatus] at hi
  obtain ⟨sK, hsK, hsKt⟩ := hKin
  have htk : steps.take j = steps.take i ++ (steps.drop i).take (j - i) := by
    have hij2 : i + (j - i) = j := by omega
    rw [← hij2, List.take_add]
    simp [Nat.add_sub_cancel_left]
  have hmid : ∀ s2, s2 ∈ (steps.drop i).take (j - i) → s2.measurement_type ≠ K := by
    intro s2 hs2 hc
    have hsplit : steps = steps.take i ++ steps.drop i := (List.take_append_drop i steps).symm
    rw [hsplit, List.map_append] at hnd
    have hdisj := List.disjoint_of_nodup_append hnd
    have hK1 : K ∈ (steps.take i).map (fun s => s.measurement_type) := by
      rw [← hsKt]
      exact List.mem_map_of_mem _ hsK
    have hK2 : K ∈ (steps.drop i).map (fun s => s.measurement_type) := by
      rw [← hc]
      exact List.mem_map_of_mem _ (List.mem_of_mem_take hs2)
    exact hdisj hK1 hK2
  rw [htk, run_steps_append]
  rw [run_steps_statuses_ne env cfg cont K _ _ _ hmid]
  exact hi

/-- Witness for C5 at a concrete two-step plan with distinct kinds. -/
theorem C5_witness :
    getStatus (statuses_after envBase cfg0 true [sW1, sPing1] st0m 2)
      (.known .wifi_info) = some .completed :=
  C5_terminal_persistent envBase cfg0 true [sW1, sPing1] st0m
    (.known .wifi_info) .completed 1 2 rfl (by decide) (by decide) rfl rfl

/-- C9: an enabled step with a zero retry budget.  The retry loop body
never runs: the probe is never invoked for that step, no error string is
appended for it, and the Run Outcome records the kind with the
non-terminal status in_progress; when additionally skip_on_error and
continue_on_failure are false, the loop breaks and no later step is
executed. -/
theorem C9_zero_retry :
    ∀ (env : CycleEnv) (cfg : Configuration) (seq : MeasurementSequence) (mid : String)
      (l1 l2 : List MeasurementStep) (s : MeasurementStep),
    gate_proceeds env cfg seq = true →
    seq.steps = l1 ++ s :: l2 →
    s.enabled = true →
    s.retry_attempts = 0 →
    (run_steps env cfg seq.continue_on_failure 0 l1
      (init_loop_state env cfg seq mid)).stopped = false →
    (∀ s2, s2 ∈ l2 → s2.measurement_type ≠ s.measurement_type) →
    ∃ r tr, execute_measurement_cycle env cfg seq mid = .ok (r, tr) ∧
      tr.countP (isProbeAt l1.length) = 0 ∧
      getStatus r.step_results s.measurement_type = some .in_progress ∧
      (run_steps env cfg seq.continue_on_failure 0 (l1 ++ [s])
          (init_loop_state env cfg seq mid)).errors =
        (run_steps env cfg seq.continue_on_failure 0 l1
          (init_loop_state env cfg seq mid)).errors ∧
      (s.skip_on_error = false → seq.continue_on_failure = false →
        run_steps env cfg seq.continue_on_failure 0 seq.steps
            (init_loop_state env cfg seq mid) =
          run_steps env cfg seq.continue_on_failure 0 (l1 ++ [s])
            (init_loop_state env cfg seq mid)) := by
  intro env cfg seq mid l1 l2 s hg hsteps hen hr0 hstop1 hl2
  have hshape := cycle_run_shape env cfg seq mid hg
  rw [hsteps] at hshape
  obtain ⟨Δe, Δt, hexp, hct⟩ := run_export_shape env seq
    (run_steps env cfg seq.continue_on_failure 0 (l1 ++ s :: l2)
      (init_loop_state env cfg seq mid))
  rw [hexp] at hshape
  obtain ⟨Δ1, hΔ1, hc1⟩ := run_steps_trace_ext env cfg seq.continue_on_failure l1 0
    (init_loop_state env cfg seq mid)
  have hc1i : Δ1.countP (isProbeAt l1.length) = 0 := hc1 l1.length (by omega)
  have hinit0 : (init_loop_state env cfg seq mid).trace.countP (isProbeAt l1.length) = 0 := by
    simp only [init_loop_state, init_trace]
    split <;> simp [isProbeAt]
  refine ⟨_, _, hshape, ?_, ?_, ?_, ?_⟩
  · -- no probe invocation for this step anywhere in the run trace
    rw [run_steps_append]
    simp only [run_steps, hstop1, hen, Bool.not_true, Bool.false_eq_true, if_false,
      Nat.zero_add, hr0, run_attempts]
    rcases (run_cleanup_shape env seq).1 with htc | htc
    all_goals split
    · simp only [LoopState.trace]
      rw [hΔ1, htc]
      simp [List.countP_append, hinit0, hc1i, hct l1.length, isProbeAt]
    · obtain ⟨Δr, hΔr, hcr⟩ := run_steps_trace_ext env cfg seq.continue_on_failure l2
        (l1.length + 1)
        { record := (run_steps env cfg seq.continue_on_failure 0 l1
            (init_loop_state env cfg seq mid)).record,
          statuses := setStatus (run_steps env cfg seq.continue_on_failure 0 l1
            (init_loop_state env cfg seq mid)).statuses s.measurement_type .in_progress,
          errors := (run_steps env cfg seq.continue_on_failure 0 l1
            (init_loop_state env cfg seq mid)).errors,
          trace := ((run_steps env cfg seq.continue_on_failure 0 l1
            (init_loop_state env cfg seq mid)).trace ++
            [TraceEv.cb_before_step s.measurement_type]) ++
            [TraceEv.cb_after_step s.measurement_type false],
          stopped := false }
      rw [hΔr]
      have hcri : Δr.countP (isProbeAt l1.length) = 0 := hcr l1.length (by omega)
      simp only [LoopState.trace]
      rw [hΔ1, htc]
      simp [List.countP_append, hinit0, hc1i, hcri, hct l1.length, isProbeAt]
    · simp only [LoopState.trace]
      rw [hΔ1, htc]
      simp [List.countP_append, hinit0, hc1i, hct l1.length, isProbeAt]
    · obtain ⟨Δr, hΔr, hcr⟩ := run_steps_trace_ext env cfg seq.continue_on_failure l2
        (l1.length + 1)
        { record := (run_steps env cfg seq.continue_on_failure 0 l1
            (init_loop_state env cfg seq mid)).record,
          statuses := setStatus (run_steps env cfg seq.continue_on_failure 0 l1
            (init_loop_state env cfg seq mid)).statuses s.measurement_type .in_progress,
          errors := (run_steps env cfg seq.continue_on_failure 0 l1
            (init_loop_state env cfg seq mid)).errors,
          trace := ((run_steps env cfg seq.continue_on_failure 0 l1
            (init_loop_state env cfg seq mid)).trace ++
            [TraceEv.cb_before_step s.measurement_type]) ++
            [TraceEv.cb_after_step s.measurement_type false],
          stopped := false }
      rw [hΔr]
      have hcri : Δr.countP (isProbeAt l1.length) = 0 := hcr l1.length (by omega)
      simp only [LoopState.trace]
      rw [hΔ1, htc]
      simp [List.countP_append, hinit0, hc1i, hcri, hct l1.length, isProbeAt]
  · -- the outcome's mapping records the kind as in_progress
    rw [run_steps_append]
    simp only [run_steps, hstop1, hen, Bool.not_true, Bool.false_eq_true, if_false,
      Nat.zero_add, hr0, run_attempts]
    split
    · simp only [LoopState.statuses]
      exact getStatus_setStatus_self _ _ _
    · rw [run_steps_statuses_ne env cfg seq.continue_on_failure s.measurement_type l2
        (l1.length + 1) _ hl2]
      simp only [LoopState.statuses]
      exact getStatus_setStatus_self _ _ _
  · -- no error string appended for this step
    rw [run_steps_append]
    simp only [run_steps, hstop1, hen, Bool.not_true, Bool.false_eq_true, if_false,
      Nat.zero_add, hr0, run_attempts]
    split
    · simp only [LoopState.errors]
    · simp only [run_steps, LoopState.errors]
  · -- with blocking flags, the loop breaks: later steps never run
    intro hsk hcf
    rw [hsteps, run_steps_append, run_steps_append]
    simp only [run_steps, hstop1, hen, Bool.not_true, Bool.false_eq_true, if_false,
      Nat.zero_add, hr0, run_attempts, hsk, hcf, Bool.not_false, Bool.and_self, if_true]

/-- Witness for C9 at a concrete plan whose first step has a zero retry
budget and blocking failure flags. -/
theorem C9_witness :
    ∃ r tr, execute_measurement_cycle envBase cfg0 seqR0 "m" = .ok (r, tr) ∧
      tr.countP (isProbeAt 0) = 0 ∧
      getStatus r.step_results (.known .ping) = some .in_progress ∧
      (run_steps envBase cfg0 seqR0.continue_on_failure 0 [step0]
          (init_loop_state envBase cfg0 seqR0 "m")).errors =
        (run_steps envBase cfg0 seqR0.continue_on_failure 0 []
          (init_loop_state envBase cfg0 seqR0 "m")).errors ∧
      (step0.skip_on_error = false → seqR0.continue_on_failure = false →
        run_steps envBase cfg0 seqR0.continue_on_failure 0 seqR0.steps
            (init_loop_state envBase cfg0 seqR0 "m") =
          run_steps envBase cfg0 seqR0.continue_on_failure 0 [step0]
            (init_loop_state envBase cfg0 seqR0 "m")) :=
  C9_zero_retry envBase cfg0 seqR0 "m" [] [sW1] step0 rfl rfl rfl rfl rfl (by decide)

/-- C6: evaluation of the code at the failing input.  First conjunct (the
bug): a latency (ping) step with retry_attempts = 1 whose probe call
succeeds is nevertheless recorded failed — _update_measurement_result
assigns the result to the getter-only property ping_result, the
AttributeError is caught by the per-attempt handler, the step's status
ends failed, one error string is appended, and the record stores no
latency result (ping_results stays empty, so the compatibility getter
also yields none).  Second conjunct (the intended behaviour, for a kind
whose record attribute is a writable field): a link-info step that fails
once and then succeeds ends completed with the result stored and no
error, as the claim demands.  The divergence on the ping/iperf_tcp kinds
contradicts the claim, the spec, and the repository's own integration
test, which asserts these steps complete with their results stored. -/
theorem C6_code_bug_eval :
    (execute_measurement_cycle envBase cfg0 seqPing "m" =
      .ok ({ measurement_id := "m",
             measurement_result :=
               { measurement_id := "m",
                 errors := ["ping failed after 1 attempts: " ++ no_setter_msg "ping_result"] },
             step_results := [(.known .ping, .failed)],
             execution_time := 5,
             errors := ["ping failed after 1 attempts: " ++ no_setter_msg "ping_result"],
             warnings := [] },
           [.cb_before_measurement, .cb_before_step (.known .ping),
            .probe_call 0 0 (.known .ping), .cb_on_error (.known .ping),
            .cb_after_step (.known .ping) false, .cb_after_measurement])) ∧
    (execute_measurement_cycle envRetry cfg0 seq1 "m" =
      .ok ({ measurement_id := "m",
             measurement_result := { measurement_id := "m", wifi_info := some 9 },
             step_results := [(.known .wifi_info, .completed)],
             execution_time := 5,
             errors := [],
             warnings := [] },
           [.cb_before_measurement, .cb_before_step (.known .wifi_info),
            .probe_call 0 0 (.known .wifi_info), .probe_call 0 1 (.known .wifi_info),
            .cb_after_step (.known .wifi_info) true, .cb_after_measurement])) := by
  exact ⟨rfl, rfl⟩

end WlanScanner
